import Mathlib

/-!
# Verification of the LumixEngine navigation subsystem

Shallow embedding of `src/navigation/navigation_system.cpp`
(`NavigationSceneImpl`).  Scalars are exact rationals (the C++ code uses
32-bit floats; we verify the real-number semantics of the same formulas).
External collaborators that are not part of this repository (the Recast
mesh-build stages, the Detour navmesh/crowd library, the render-scene
geometry provider) are modelled from the specification's contracts; each
such definition is marked `Modelled from the spec:` in its doc comment.

Members of `NavigationSceneImpl` that no verified claim touches
(debug-draw buffers and the retained `m_debug_*` diagnostic pointers,
the physics-scene pointer, Lua registration, the component/property
glue) are not modelled.
-/

namespace NavSpec

/-- 3-component vector (`Lumix::Vec3`), with exact rational fields. -/
structure Vec3 where
  x : ℚ
  y : ℚ
  z : ℚ
deriving DecidableEq, Repr

instance : Inhabited Vec3 := ⟨⟨0, 0, 0⟩⟩

def Vec3.sub (a b : Vec3) : Vec3 := ⟨a.x - b.x, a.y - b.y, a.z - b.z⟩

/-- `Lumix::crossProduct`. -/
def crossProduct (a b : Vec3) : Vec3 :=
  ⟨a.y * b.z - a.z * b.y, a.z * b.x - a.x * b.z, a.x * b.y - a.y * b.x⟩

/-- Squared euclidean norm (`Vec3::squaredLength`). -/
def Vec3.squaredLength (v : Vec3) : ℚ := v.x * v.x + v.y * v.y + v.z * v.z

/-- World-space axis-aligned bounding box (`Lumix::AABB`). -/
structure AABB where
  min : Vec3
  max : Vec3
deriving DecidableEq, Repr

instance : Inhabited AABB := ⟨⟨default, default⟩⟩

def AABB.merge (a b : AABB) : AABB :=
  ⟨⟨Min.min a.min.x b.min.x, Min.min a.min.y b.min.y, Min.min a.min.z b.min.z⟩,
   ⟨Max.max a.max.x b.max.x, Max.max a.max.y b.max.y, Max.max a.max.z b.max.z⟩⟩

def AABB.overlaps (a b : AABB) : Bool :=
  a.min.x ≤ b.max.x && b.min.x ≤ a.max.x &&
  a.min.y ≤ b.max.y && b.min.y ≤ a.max.y &&
  a.min.z ≤ b.max.z && b.min.z ≤ a.max.z

/-! ## Walkability classification

The source classifies a triangle by the up-component of its *normalized*
face normal: `crossProduct(…).normalized().y > walkable_threshold` where
`walkable_threshold` is `cosf(45°)` for meshes and `cosf(60°)` for
terrain.  Normalization divides by the euclidean length, which is
irrational, so we use the exact equivalent over the unnormalized cross
product `n`: for a threshold `t > 0`,
`n.y / ‖n‖ > t  ↔  n.y > 0 ∧ n.y² > t² ⬝ ‖n‖²`.
`cos² 45° = 1/2` and `cos² 60° = 1/4` are exact rationals, so both
comparisons are decidable.  For a degenerate triangle (`‖n‖ = 0`) the
C++ normalization produces NaN and the `>` comparison is false; the
rational form also yields false. -/

/-- `n.normalized().y > cos 45°`, the mesh walkability test of
`rasterizeMeshes`, in exact rational form. -/
def meshNormalWalkable (n : Vec3) : Bool :=
  0 < n.y && n.y * n.y * 2 > n.squaredLength

/-- `n.normalized().y > cos 60°`, the terrain walkability test of
`rasterizeTerrains`, in exact rational form. -/
def terrainNormalWalkable (n : Vec3) : Bool :=
  0 < n.y && n.y * n.y * 4 > n.squaredLength

/-- `RC_WALKABLE_AREA` (Recast's walkable area tag, value 63). -/
def RC_WALKABLE_AREA : ℕ := 63

/-! ## Geometry provider model

The render scene is an external collaborator (`RenderScene`); we model
the data the sampling loops read from it.  Entity placement transforms
are folded into the provider's output: a renderable hands out
world-space triangles and its world-space AABB (in the source the
model-space data is transformed by the entity matrix before use), and a
terrain is modelled with identity rotation (heights are a function of
the grid cell). -/

/-- One sub-mesh of a model: its material flags and its (world-space)
triangles.  The 16-bit and 32-bit index paths of `rasterizeMeshes`
execute identical arithmetic, so triangles are modelled as one list. -/
structure MeshData where
  no_navigation : Bool
  nonwalkable : Bool
  tris : List (Vec3 × Vec3 × Vec3)
deriving DecidableEq, Repr

/-- A renderable model instance: world-space AABB plus the sub-meshes of
its LOD-0 range.  `hasModel = false` models
`getRenderableModel(renderable) == nullptr`. -/
structure Renderable where
  hasModel : Bool
  aabb : AABB
  meshes : List MeshData
deriving DecidableEq, Repr

/-- A terrain instance (modelled with identity rotation): world
position, XZ scale, resolution and a height function over grid
coordinates (`getTerrainHeightAt` sampled at multiples of the scale). -/
structure Terrain where
  pos : Vec3
  scaleXZ : ℚ
  resX : ℚ
  resY : ℚ
  heightAt : ℤ → ℤ → ℚ
  aabb : AABB

/-- The geometry the render scene exposes to the sampler. -/
structure RenderSceneModel where
  renderables : List Renderable
  terrains : List Terrain

/-- A rasterization request: one triangle handed to
`rcRasterizeTriangle` with its area tag. -/
structure RasterTri where
  a : Vec3
  b : Vec3
  c : Vec3
  area : ℕ
deriving DecidableEq, Repr

/-- Triangles of one sub-mesh as rasterized by `rasterizeMeshes`:
area is `RC_WALKABLE_AREA` iff the face normal passes the 45° test and
the material is not flagged nonwalkable. -/
def rasterizeMeshTris (is_walkable : Bool) (tris : List (Vec3 × Vec3 × Vec3)) : List RasterTri :=
  tris.map fun t =>
    let n := crossProduct (t.1.sub t.2.1) (t.1.sub t.2.2)
    ⟨t.1, t.2.1, t.2.2, if meshNormalWalkable n && is_walkable then RC_WALKABLE_AREA else 0⟩

/-- Sub-meshes of one renderable: meshes carrying the `no_navigation`
material flag are skipped entirely. -/
def rasterizeRenderable (r : Renderable) : List RasterTri :=
  (r.meshes.filter (fun m => !m.no_navigation)).flatMap
    (fun m => rasterizeMeshTris (!m.nonwalkable) m.tris)

/-- `NavigationSceneImpl::rasterizeMeshes`: walk the renderables,
abort everything on a missing model (the source `return`s from the whole
function), skip renderables whose world AABB does not overlap the query
box, and rasterize each remaining sub-mesh. -/
def rasterizeMeshes (scene : RenderSceneModel) (aabb : AABB) : List RasterTri :=
  go scene.renderables
where
  go : List Renderable → List RasterTri
  | [] => []
  | r :: rest =>
    if !r.hasModel then []
    else if !(r.aabb.overlaps aabb) then go rest
    else rasterizeRenderable r ++ go rest

/-- Clamp (`Math::clamp`). -/
def clampQ (v lo hi : ℚ) : ℚ := min (max v lo) hi

/-- C float-to-int cast (truncation toward zero). -/
def cInt (q : ℚ) : ℤ := if 0 ≤ q then ⌊q⌋ else -⌊-q⌋

/-- The two triangles `rasterizeTerrains` emits for grid cell `(i, j)`
of a terrain, each classified by the 60° test. -/
def terrainCellTris (t : Terrain) (i j : ℤ) : List RasterTri :=
  let s := t.scaleXZ
  let p0 := ⟨t.pos.x + i * s, t.pos.y + t.heightAt i j, t.pos.z + j * s⟩
  let p1 := ⟨t.pos.x + (i + 1) * s, t.pos.y + t.heightAt (i + 1) j, t.pos.z + j * s⟩
  let p2 := ⟨t.pos.x + (i + 1) * s, t.pos.y + t.heightAt (i + 1) (j + 1), t.pos.z + (j + 1) * s⟩
  let p3 : Vec3 := ⟨t.pos.x + i * s, t.pos.y + t.heightAt i (j + 1), t.pos.z + (j + 1) * s⟩
  let n1 := crossProduct (p1.sub p0) (p0.sub p2)
  let n2 := crossProduct (p2.sub p0) (p0.sub p3)
  [⟨p0, p1, p2, if terrainNormalWalkable n1 then RC_WALKABLE_AREA else 0⟩,
   ⟨p0, p2, p3, if terrainNormalWalkable n2 then RC_WALKABLE_AREA else 0⟩]

/-- Grid-cell range of one terrain clipped to the query box
(the `from_x … to_x/from_z … to_z` computation of `rasterizeTerrains`,
with identity terrain rotation so the terrain-space AABB is the world
AABB translated by `-pos`). -/
def terrainCellRange (t : Terrain) (aabb : AABB) : ℤ × ℤ × ℤ × ℤ :=
  let lo := aabb.min.sub t.pos
  let hi := aabb.max.sub t.pos
  (cInt (clampQ (lo.x / t.scaleXZ - 1) 0 (t.resX - 1)),
   cInt (clampQ (hi.x / t.scaleXZ + 1) 0 (t.resX - 1)),
   cInt (clampQ (lo.z / t.scaleXZ - 1) 0 (t.resY - 1)),
   cInt (clampQ (hi.z / t.scaleXZ + 1) 0 (t.resY - 1)))

/-- `NavigationSceneImpl::rasterizeTerrains` for one terrain: two
classified triangles per clipped grid cell (`j` outer, `i` inner). -/
def rasterizeTerrain (t : Terrain) (aabb : AABB) : List RasterTri :=
  let r := terrainCellRange t aabb
  ((List.range (r.2.2.2 - r.2.2.1).toNat).map (fun dj : ℕ => r.2.2.1 + (dj : ℤ))).flatMap fun j =>
    ((List.range (r.2.1 - r.1).toNat).map (fun di : ℕ => r.1 + (di : ℤ))).flatMap fun i =>
      terrainCellTris t i j

/-- `NavigationSceneImpl::rasterizeTerrains`. -/
def rasterizeTerrains (scene : RenderSceneModel) (aabb : AABB) : List RasterTri :=
  scene.terrains.flatMap (fun t => rasterizeTerrain t aabb)

/-- `NavigationSceneImpl::rasterizeGeometry`. -/
def rasterizeGeometry (scene : RenderSceneModel) (aabb : AABB) : List RasterTri :=
  rasterizeMeshes scene aabb ++ rasterizeTerrains scene aabb

/-! ## NavMesh tile store (Detour `dtNavMesh`, modelled from the spec)

The Detour library is an external collaborator (§6); the store is
modelled as the spec describes it: a set of opaque tile blobs addressed
by integer tile coordinate plus write-once build parameters, where
adding at an occupied coordinate evicts the previous tile. -/

/-- `dtNavMeshParams`. -/
structure NavMeshParams where
  orig : Vec3
  tileWidth : ℚ
  tileHeight : ℚ
  maxTiles : ℤ
  maxPolys : ℤ
deriving DecidableEq, Repr

instance : Inhabited NavMeshParams := ⟨⟨default, 0, 0, 0, 0⟩⟩

/-- One serialized navmesh tile blob.  The blob is opaque to the core;
its header carries the tile coordinate (written by `dtCreateNavMeshData`
from `params.tileX/tileY`) and the polygon/vertex counts, and
`dataSize` is the byte length the persistence code writes. -/
structure TileBlob where
  tx : ℤ
  tz : ℤ
  polyCount : ℕ
  vertCount : ℕ
  dataSize : ℤ
deriving DecidableEq, Repr

instance : Inhabited TileBlob := ⟨⟨0, 0, 0, 0, 0⟩⟩

/-- Modelled from the spec: the tile store; `inited` holds the
parameters once `dtNavMesh::init` has accepted them (`none` =
allocated but not initialized). -/
structure NavMeshStore where
  inited : Option NavMeshParams
  tiles : List ((ℤ × ℤ) × TileBlob)
deriving DecidableEq, Repr

/-- Modelled from the spec: `dtNavMesh::getTileAt`. -/
def NavMeshStore.getTileAt (st : NavMeshStore) (x z : ℤ) : Option TileBlob :=
  (st.tiles.find? (fun e => e.1 = (x, z))).map (·.2)

/-- Modelled from the spec: `dtNavMesh::addTile` — evicts any tile at
the blob's own coordinate, then inserts (insertion order preserved at
the tail). -/
def NavMeshStore.addTile (st : NavMeshStore) (b : TileBlob) : NavMeshStore :=
  { st with tiles := st.tiles.filter (fun e => e.1 ≠ (b.tx, b.tz)) ++ [((b.tx, b.tz), b)] }

/-- Modelled from the spec: `dtNavMesh::removeTile` of the tile ref at a
coordinate (removing an absent tile is a no-op). -/
def NavMeshStore.removeTileAt (st : NavMeshStore) (x z : ℤ) : NavMeshStore :=
  { st with tiles := st.tiles.filter (fun e => e.1 ≠ (x, z)) }

/-- The polygon mesh a successful Recast pipeline run produces
(`rcPolyMesh`): polygon count, vertex count, per-polygon area tags. -/
structure PolyMesh where
  npolys : ℕ
  nverts : ℕ
  areas : List ℕ
deriving DecidableEq, Repr

/-- Modelled from the spec: the external mesh-build library (§6).
`pipe` is the stage composition `rcCreateHeightfield` → filters →
compact → erode → distance field → regions → contours → `rcBuildPolyMesh`
→ `rcBuildPolyMeshDetail` run on the sampled triangles (each stage may
fail; `none` = some stage failed).  `createData` is
`dtCreateNavMeshData` for tile `(x, z)` given the poly mesh and the
per-polygon flags.  `initOk` is `dtNavMesh::init`'s acceptance of a
parameter set, `tileOk` is `dtNavMesh::addTile`'s acceptance of a blob. -/
structure MeshBuildLib where
  pipe : List RasterTri → Option PolyMesh
  createData : PolyMesh → List ℕ → ℤ → ℤ → Option TileBlob
  initOk : NavMeshParams → Bool
  tileOk : TileBlob → Bool

/-! ## Crowd library model (Detour `dtCrowd`, modelled from the spec) -/

/-- `dtCrowdAgentParams` (the fields the core reads/writes). -/
structure DtCrowdAgentParams where
  radius : ℚ
  height : ℚ
  maxAcceleration : ℚ
  maxSpeed : ℚ
  collisionQueryRange : ℚ
  pathOptimizationRange : ℚ
  updateFlags : ℕ
deriving DecidableEq, Repr

instance : Inhabited DtCrowdAgentParams := ⟨⟨0, 0, 0, 0, 0, 0, 0⟩⟩

/-- Modelled from the spec: the crowd library's per-agent runtime state —
position, velocity, corridor corner count, steering parameters and the
current move target (`targetRef = 0` means no target). -/
structure DtCrowdAgent where
  npos : Vec3
  vel : Vec3
  ncorners : ℕ
  params : DtCrowdAgentParams
  targetRef : ℕ
  targetPos : Vec3
deriving DecidableEq, Repr

instance : Inhabited DtCrowdAgent := ⟨⟨default, default, 0, default, 0, default⟩⟩

/-- Modelled from the spec: the crowd context — live agents addressed by
handle, with fresh handles allocated at `nextHandle`. -/
structure DtCrowd where
  agents : List (ℤ × DtCrowdAgent)
  nextHandle : ℤ
deriving DecidableEq, Repr

/-- Modelled from the spec: `dtCrowd::getAgent`. -/
def DtCrowd.getAgent (c : DtCrowd) (h : ℤ) : Option DtCrowdAgent :=
  (c.agents.find? (fun e => e.1 = h)).map (·.2)

/-- Modelled from the spec: `dtCrowd::addAgent` — a freshly added agent
sits at the given position with cleared velocity, corridor and target. -/
def DtCrowd.addAgent (c : DtCrowd) (pos : Vec3) (p : DtCrowdAgentParams) : DtCrowd × ℤ :=
  (⟨c.agents ++ [(c.nextHandle, ⟨pos, ⟨0, 0, 0⟩, 0, p, 0, pos⟩)], c.nextHandle + 1⟩, c.nextHandle)

/-- Modelled from the spec: `dtCrowd::removeAgent`. -/
def DtCrowd.removeAgent (c : DtCrowd) (h : ℤ) : DtCrowd :=
  { c with agents := c.agents.filter (fun e => e.1 ≠ h) }

/-- Update the agent at a handle in place. -/
def DtCrowd.modifyAgent (c : DtCrowd) (h : ℤ) (f : DtCrowdAgent → DtCrowdAgent) : DtCrowd :=
  { c with agents := c.agents.map (fun e => if e.1 = h then (e.1, f e.2) else e) }

/-- Modelled from the spec: `dtCrowd::updateAgentParameters`. -/
def DtCrowd.updateAgentParameters (c : DtCrowd) (h : ℤ) (p : DtCrowdAgentParams) : DtCrowd :=
  c.modifyAgent h (fun d => { d with params := p })

/-- Modelled from the spec: `dtCrowd::requestMoveTarget` — a request
against the null polygon ref (no polygon was found) is rejected without
touching the agent; otherwise the move target is installed and the
request is accepted. -/
def DtCrowd.requestMoveTarget (c : DtCrowd) (h : ℤ) (ref : ℕ) (pos : Vec3) : DtCrowd × Bool :=
  if ref = 0 then (c, false)
  else (c.modifyAgent h (fun d => { d with targetRef := ref, targetPos := pos }), true)

/-- Modelled from the spec: `dtCrowd::resetMoveTarget`. -/
def DtCrowd.resetMoveTarget (c : DtCrowd) (h : ℤ) : DtCrowd :=
  c.modifyAgent h (fun d => { d with targetRef := 0 })

/-! ## Scene state -/

/-- `Lumix::Agent` (the navigation component record). -/
structure Agent where
  entity : ℤ
  radius : ℚ
  height : ℚ
  agent : ℤ
  is_finished : Bool
deriving DecidableEq, Repr

/-- `rcConfig` as populated by `setGeneratorParams` (the fields the
core derives; `bmin`/`bmax` are set per tile in `generateTile`). -/
structure RcConfig where
  cs : ℚ
  ch : ℚ
  walkableSlopeAngle : ℚ
  walkableHeight : ℤ
  walkableClimb : ℤ
  walkableRadius : ℤ
  maxEdgeLen : ℤ
  maxSimplificationError : ℚ
  minRegionArea : ℤ
  mergeRegionArea : ℤ
  maxVertsPerPoly : ℤ
  detailSampleDist : ℚ
  detailSampleMaxError : ℚ
  borderSize : ℤ
  tileSize : ℤ
  width : ℤ
  height : ℤ
deriving DecidableEq, Repr

/-- `CELLS_PER_TILE_SIDE`. -/
def CELLS_PER_TILE_SIDE : ℤ := 256

/-- `CELL_SIZE` (0.3f). -/
def CELL_SIZE : ℚ := 3 / 10

/-- `NavigationSceneImpl::setGeneratorParams`. -/
def setGeneratorParams (cell_size cell_height agent_radius agent_height walkable_angle max_climb : ℚ) : RcConfig :=
  let cs := cell_size
  let ch := cell_height
  let walkableRadius := cInt (agent_radius / cs + 99 / 100)
  { cs := cs
    ch := ch
    walkableSlopeAngle := walkable_angle
    walkableHeight := cInt (agent_height / ch + 99 / 100)
    walkableClimb := cInt (max_climb / ch)
    walkableRadius := walkableRadius
    maxEdgeLen := cInt (12 / cs)
    maxSimplificationError := 13 / 10
    minRegionArea := 8 * 8
    mergeRegionArea := 20 * 20
    maxVertsPerPoly := 6
    -- DETAIL_SAMPLE_DIST = 6 ≥ 0.9, so the branch selects CELL_SIZE * 6
    detailSampleDist := CELL_SIZE * 6
    detailSampleMaxError := ch * 1
    borderSize := walkableRadius + 3
    tileSize := CELLS_PER_TILE_SIDE
    width := CELLS_PER_TILE_SIDE + (walkableRadius + 3) * 2
    height := CELLS_PER_TILE_SIDE + (walkableRadius + 3) * 2 }

/-- The config the scene constructor installs:
`setGeneratorParams(0.3f, 0.1f, 0.3f, 2.0f, 60.0f, 1.5f)`. -/
def initialConfig : RcConfig :=
  setGeneratorParams (3 / 10) (1 / 10) (3 / 10) 2 60 (3 / 2)

/-- The mutable state of `NavigationSceneImpl` that the verified claims
touch, together with the entity transforms of the universe.
`positions` is the entity → position map; `facings` models the entity
rotations: `update` writes a yaw of `atan2(v.x, v.z)` from the
velocity `v`, so we store the velocity vector that determines it. -/
structure SceneState where
  positions : List (ℤ × Vec3)
  facings : List (ℤ × Vec3)
  agents : List Agent
  crowd : Option DtCrowd
  navmesh : Option NavMeshStore
  navquery : Bool
  polymesh : Option PolyMesh
  aabb : AABB
  num_tiles_x : ℤ
  num_tiles_z : ℤ
  config : RcConfig
deriving DecidableEq, Repr

/-- Association-list lookup over entity keys. -/
def lookupA {α : Type} (l : List (ℤ × α)) (k : ℤ) : Option α :=
  (l.find? (fun e => e.1 = k)).map (·.2)

/-- Association-list update (replace in place, append when absent). -/
def setA {α : Type} (l : List (ℤ × α)) (k : ℤ) (v : α) : List (ℤ × α) :=
  if (l.find? (fun e => e.1 = k)).isSome then
    l.map (fun e => if e.1 = k then (k, v) else e)
  else l ++ [(k, v)]

/-- `Universe::getPosition` (an unknown entity reads the origin). -/
def getPosition (s : SceneState) (entity : ℤ) : Vec3 :=
  (lookupA s.positions entity).getD default

/-- `m_agents.find(entity)`. -/
def findAgent (agents : List Agent) (entity : ℤ) : Option Agent :=
  agents.find? (fun a => a.entity = entity)

/-- `INVALID_ENTITY`. -/
def INVALID_ENTITY : ℤ := -1

/-- `NavigationSceneImpl::clear` — frees and nulls the poly mesh, the
navmesh query, the navmesh, the crowd and the debug buffers.  The AABB,
grid counts, config and agent records are untouched. -/
def clearState (s : SceneState) : SceneState :=
  { s with polymesh := none, navquery := false, navmesh := none, crowd := none }

/-- `NavigationSceneImpl::initNavmesh` — allocates a fresh (empty,
uninitialized) navmesh and a query bound to it.  Allocation failure is
an out-of-memory condition not modelled; the success path is embedded. -/
def initNavmeshState (s : SceneState) : SceneState :=
  { s with navmesh := some ⟨none, []⟩, navquery := true }

/-- The `dtCrowdAgentParams` that `addCrowdAgent` fills in
(`updateFlags` is the OR of the five `DT_CROWD_*` flags, value 31). -/
def crowdParamsOf (a : Agent) : DtCrowdAgentParams :=
  { radius := a.radius
    height := a.height
    maxAcceleration := 10
    maxSpeed := 10
    collisionQueryRange := a.radius * 12
    pathOptimizationRange := a.radius * 30
    updateFlags := 31 }

/-- `NavigationSceneImpl::addCrowdAgent` on the raw crowd: adds the
agent at its entity's current position and returns the new handle. -/
def addCrowdAgentC (c : DtCrowd) (pos : Vec3) (a : Agent) : DtCrowd × ℤ :=
  c.addAgent pos (crowdParamsOf a)

/-- Re-add every agent record to a fresh crowd, rebinding handles
(the loop of `initCrowd`). -/
def reAddAgents (s : SceneState) : DtCrowd → List Agent → DtCrowd × List Agent
  | c, [] => (c, [])
  | c, a :: rest =>
    let r := addCrowdAgentC c (getPosition s a.entity) a
    let r2 := reAddAgents s r.1 rest
    (r2.1, { a with agent := r.2 } :: r2.2)

/-- `NavigationSceneImpl::initCrowd` — allocates the crowd context
(capacity 1000, bound to the navmesh) and re-adds every agent; the
`dtCrowd::init` allocation failure is not modelled. -/
def initCrowd (s : SceneState) : SceneState :=
  let r := reAddAgents s ⟨[], 0⟩ s.agents
  { s with crowd := some r.1, agents := r.2 }

/-- `NavigationSceneImpl::navigate`.  `findNearest` models
`dtNavMeshQuery::findNearestPoly` with the fixed search extent
`{1, 2, 1}` around the destination (result `0` = no polygon found
within the extent). -/
def navigate (findNearest : Vec3 → ℕ) (s : SceneState) (entity : ℤ) (dest : Vec3) (speed : ℚ) :
    SceneState × Bool :=
  if !s.navquery then (s, false)
  else
    match s.crowd with
    | none => (s, false)
    | some c =>
      if entity = INVALID_ENTITY then (s, false)
      else
        match findAgent s.agents entity with
        | none => (s, false)
        | some a =>
          let ref := findNearest dest
          let old := (c.getAgent a.agent).getD default
          let p := { old.params with maxSpeed := speed }
          let c1 := c.updateAgentParameters a.agent p
          let r := c1.requestMoveTarget a.agent ref dest
          ({ s with crowd := some r.1 }, r.2)

/-- `NavigationSceneImpl::onEntityMoved`.  The source dereferences
`m_crowd` and the agent handle without a check; a missing crowd or dead
handle is undefined behavior there and is modelled as `none`. -/
def onEntityMoved (s : SceneState) (entity : ℤ) : Option SceneState :=
  match findAgent s.agents entity with
  | none => some s
  | some a =>
    match s.crowd with
    | none => none
    | some c =>
      let pos := getPosition s entity
      match c.getAgent a.agent with
      | none => none
      | some da =>
        if (pos.sub da.npos).squaredLength > 1 / 10 then
          let c1 := c.removeAgent a.agent
          let r := addCrowdAgentC c1 pos a
          some { s with crowd := some r.1,
                        agents := s.agents.map
                          (fun b => if b.entity = entity then { b with agent := r.2 } else b) }
        else some s

/-! ## Simulation step -/

/-- Result of the per-agent loop of `update`: the (possibly
target-reset) crowd, updated entity transforms, updated agent records,
and the entities for which a "path finished" notification was raised
(`onPathFinished` — delivery iterates the entity's scripts; the event
here is the raising of the notification). -/
structure UpdateResult where
  crowd : DtCrowd
  positions : List (ℤ × Vec3)
  facings : List (ℤ × Vec3)
  agents : List Agent
  events : List ℤ
deriving DecidableEq, Repr

/-- The `for (auto* agent : m_agents)` loop of `update`: write each
live agent's simulated position back to its entity, write the facing
from the velocity when the speed is nonzero, and run the arrival logic
(`ncorners == 0` edge-triggered on `is_finished`). -/
def updateAgents (c : DtCrowd) (ps fs : List (ℤ × Vec3)) :
    List Agent → UpdateResult
  | [] => ⟨c, ps, fs, [], []⟩
  | a :: rest =>
    let da := (c.getAgent a.agent).getD default
    let ps1 := setA ps a.entity da.npos
    let fs1 := if 0 < da.vel.squaredLength then setA fs a.entity da.vel else fs
    let step : DtCrowd × Agent × List ℤ :=
      if da.ncorners = 0 then
        if !a.is_finished then
          (c.resetMoveTarget a.agent, { a with is_finished := true }, [a.entity])
        else (c, a, [])
      else (c, { a with is_finished := false }, [])
    let r := updateAgents step.1 ps1 fs1 rest
    ⟨r.crowd, r.positions, r.facings, step.2.1 :: r.agents, step.2.2 ++ r.events⟩

/-- `NavigationSceneImpl::update(time_delta, paused)`.  `crowdStep`
models the opaque `dtCrowd::update(time_delta, nullptr)` steering/
avoidance step of the crowd library. -/
def sceneUpdate (crowdStep : ℚ → DtCrowd → DtCrowd) (s : SceneState) (time_delta : ℚ)
    (paused : Bool) : SceneState × List ℤ :=
  match s.crowd with
  | none => (s, [])
  | some c =>
    let c0 := crowdStep time_delta c
    let r := updateAgents c0 s.positions s.facings s.agents
    ({ s with crowd := some r.crowd, positions := r.positions, facings := r.facings,
              agents := r.agents }, r.events)

/-! ## Tile generation and the full build -/

/-- The expanded world bounds of tile `(x, z)` as computed at the top of
`generateTile`: the tile footprint grown by `(1 + borderSize) · cs` on
the low side of each horizontal axis. -/
def tileBounds (aabb : AABB) (cfg : RcConfig) (x z : ℤ) : AABB :=
  let border : ℚ := ((1 : ℤ) + cfg.borderSize : ℤ)
  let T : ℚ := (CELLS_PER_TILE_SIDE : ℚ) * CELL_SIZE
  let bmin : Vec3 := ⟨aabb.min.x + x * T - border * cfg.cs, aabb.min.y,
                      aabb.min.z + z * T - border * cfg.cs⟩
  ⟨bmin, ⟨bmin.x + T + border * cfg.cs, aabb.max.y, bmin.z + T + border * cfg.cs⟩⟩

/-- `NavigationSceneImpl::generateTile`.  The ten Recast/Detour stages
between rasterization and `dtCreateNavMeshData` are the external
library (`lib.pipe`); `keep_data` only controls retention of debug
buffers, which are not modelled. -/
def generateTile (lib : MeshBuildLib) (scene : RenderSceneModel) (s : SceneState)
    (x z : ℤ) (keep_data : Bool) : SceneState × Bool :=
  match s.navmesh with
  | none => (s, false)
  | some st =>
    let st1 := st.removeTileAt x z
    let s1 := { s with navmesh := some st1 }
    let tris := rasterizeGeometry scene (tileBounds s.aabb s.config x z)
    match lib.pipe tris with
    | none => (s1, false)
    | some pm =>
      let s2 := { s1 with polymesh := some pm }
      -- the per-polygon flag loop: flag 1 iff the polygon's area is walkable
      let flags := pm.areas.map (fun ar => if ar = RC_WALKABLE_AREA then (1 : ℕ) else 0)
      match lib.createData pm flags x z with
      | none => (s2, false)
      | some blob =>
        if lib.tileOk blob then ({ s2 with navmesh := some (st1.addTile blob) }, true)
        else (s2, false)

/-- Derived: the outcome of building one tile (success blob or failure),
which depends only on the geometry, the library, the world AABB and the
config — not on the tiles already in the store.  Used to state
properties of the tile loops. -/
def tileData (lib : MeshBuildLib) (scene : RenderSceneModel) (aabb : AABB) (cfg : RcConfig)
    (x z : ℤ) : Option TileBlob :=
  match lib.pipe (rasterizeGeometry scene (tileBounds aabb cfg x z)) with
  | none => none
  | some pm =>
    match lib.createData pm (pm.areas.map (fun ar => if ar = RC_WALKABLE_AREA then (1 : ℕ) else 0))
        x z with
    | none => none
    | some b => if lib.tileOk b then some b else none

/-- `NavigationSceneImpl::computeAABB` — starts from the degenerate box
at the origin and merges every renderable's and terrain's world AABB
(a renderable without a model is skipped with `continue` here). -/
def computeAABB (scene : RenderSceneModel) : AABB :=
  let a1 := (scene.renderables.filter (·.hasModel)).foldl (fun acc r => acc.merge r.aabb)
    ⟨⟨0, 0, 0⟩, ⟨0, 0, 0⟩⟩
  scene.terrains.foldl (fun acc t => acc.merge t.aabb) a1

/-- Modelled from the spec: `rcCalcGridSize` (Recast, not under `src/`)
— the voxel grid dimensions of a box at a given cell size,
`(int)((max - min) / cs + 0.5)` per axis. -/
def rcCalcGridSize (a : AABB) (cs : ℚ) : ℤ × ℤ :=
  (cInt ((a.max.x - a.min.x) / cs + 1 / 2), cInt ((a.max.z - a.min.z) / cs + 1 / 2))

/-- Modelled from the spec: `Math::nextPow2` (engine source not under
`src/`) — the least power of two that is ≥ `n` (0 for `n ≤ 0`). -/
def nextPow2 (n : ℤ) : ℤ :=
  if n ≤ 0 then 0 else 2 ^ Nat.clog 2 n.toNat

/-- Modelled from the spec: `Math::log2` (engine source not under
`src/`) — floor of the base-2 logarithm. -/
def log2I (n : ℤ) : ℕ := Nat.log2 n.toNat

/-- Row-major tile coordinates of the grid (`z` outer, `x` inner), the
iteration order of the tile loops in `generateNavmesh`, `save` and
`load`. -/
def rowMajor (nx nz : ℤ) : List (ℤ × ℤ) :=
  (List.range nz.toNat).flatMap (fun j : ℕ =>
    (List.range nx.toNat).map (fun i : ℕ => ((i : ℤ), (j : ℤ))))

/-- The tile loop of `generateNavmesh`: build each coordinate in turn,
aborting on the first failure. -/
def buildTiles (lib : MeshBuildLib) (scene : RenderSceneModel) :
    SceneState → List (ℤ × ℤ) → SceneState × Bool
  | s, [] => (s, true)
  | s, coord :: rest =>
    let r := generateTile lib scene s coord.1 coord.2 false
    if r.2 then buildTiles lib scene r.1 rest else (r.1, false)

/-- The `dtNavMeshParams` that `generateNavmesh` derives from the world
AABB: origin at the AABB minimum, fixed tile world size, tile counts
from the voxel grid, and a polygon budget keeping 10 bits of the
22 non-salt address bits for tiles. -/
def deriveNavMeshParams (aabb : AABB) : NavMeshParams × ℤ × ℤ :=
  let g := rcCalcGridSize aabb CELL_SIZE
  let nx := (g.1 + CELLS_PER_TILE_SIDE - 1) / CELLS_PER_TILE_SIDE
  let nz := (g.2 + CELLS_PER_TILE_SIDE - 1) / CELLS_PER_TILE_SIDE
  let maxTiles := nx * nz
  let tiles_bits := log2I (nextPow2 maxTiles)
  ({ orig := aabb.min
     tileWidth := (CELLS_PER_TILE_SIDE : ℚ) * CELL_SIZE
     tileHeight := (CELLS_PER_TILE_SIDE : ℚ) * CELL_SIZE
     maxTiles := maxTiles
     maxPolys := 2 ^ (22 - tiles_bits) }, nx, nz)

/-- `NavigationSceneImpl::generateNavmesh`. -/
def generateNavmesh (lib : MeshBuildLib) (scene : RenderSceneModel) (s : SceneState) :
    SceneState × Bool :=
  let s1 := initNavmeshState (clearState s)
  let aabb := computeAABB scene
  let d := deriveNavMeshParams aabb
  let s2 := { s1 with aabb := aabb, num_tiles_x := d.2.1, num_tiles_z := d.2.2 }
  if !lib.initOk d.1 then (s2, false)
  else
    let s3 := { s2 with navmesh := some ⟨some d.1, []⟩ }
    buildTiles lib scene s3 (rowMajor d.2.1 d.2.2)

/-- `NavigationSceneImpl::getPolygonCount`. -/
def getPolygonCount (s : SceneState) : ℤ :=
  match s.polymesh with
  | none => 0
  | some pm => pm.npolys

/-! ## Persistence

The file is modelled as a list of typed records standing for the raw
structs the source `memcpy`s through `OsFile` (AABB, ints, the
`dtNavMeshParams` struct, and opaque tile blobs); the binary layout
within one record is not bit-modelled.  `OsFile::read` on an exhausted
stream fails and leaves its destination untouched; the source never
checks its return value, which the read functions mirror by yielding
the caller's current value. -/

inductive FileVal where
  | aabbV : AABB → FileVal
  | intV : ℤ → FileVal
  | paramsV : NavMeshParams → FileVal
  | blobV : TileBlob → FileVal
deriving DecidableEq, Repr

/-- Read a stored AABB; on a short stream the destination keeps its
current value (`cur`) and nothing is consumed. -/
def readAABB (cur : AABB) : List FileVal → AABB × List FileVal
  | FileVal.aabbV a :: rest => (a, rest)
  | st => (cur, st)

def readInt (cur : ℤ) : List FileVal → ℤ × List FileVal
  | FileVal.intV n :: rest => (n, rest)
  | st => (cur, st)

def readParams (cur : NavMeshParams) : List FileVal → NavMeshParams × List FileVal
  | FileVal.paramsV p :: rest => (p, rest)
  | st => (cur, st)

def readBlob (cur : TileBlob) : List FileVal → TileBlob × List FileVal
  | FileVal.blobV b :: rest => (b, rest)
  | st => (cur, st)

/-- The tile rows `save` writes: for each grid coordinate in row-major
order, the tile's `dataSize` then its blob.  `getTileAt` on a missing
tile is a null dereference in the source; the claims all assume a fully
built store, modelled by the `default` fallback. -/
def saveTiles (st : NavMeshStore) : List (ℤ × ℤ) → List FileVal
  | [] => []
  | c :: rest =>
    let b := (st.getTileAt c.1 c.2).getD default
    FileVal.intV b.dataSize :: FileVal.blobV b :: saveTiles st rest

/-- `NavigationSceneImpl::save` (file creation assumed to succeed; the
produced stream is returned instead of written). -/
def save (s : SceneState) : List FileVal × Bool :=
  match s.navmesh with
  | none => ([], false)
  | some st =>
    let params := st.inited.getD default
    (FileVal.aabbV s.aabb :: FileVal.intV s.num_tiles_x :: FileVal.intV s.num_tiles_z ::
       FileVal.paramsV params :: saveTiles st (rowMajor s.num_tiles_x s.num_tiles_z), true)

/-- The tile loop of `load`: read `count` (`dataSize`, blob) pairs and
insert each via `addTile`, aborting with failure when the library
rejects a blob.  The local `data_size` starts as uninitialized stack
memory, modelled as 0. -/
def loadTiles (lib : MeshBuildLib) :
    NavMeshStore → List FileVal → ℕ → NavMeshStore × List FileVal × Bool
  | st, stream, 0 => (st, stream, true)
  | st, stream, n + 1 =>
    let r1 := readInt 0 stream
    let r2 := readBlob default r1.2
    if lib.tileOk r2.1 then loadTiles lib (st.addTile r2.1) r2.2 n
    else (st, r2.2, false)

/-- `NavigationSceneImpl::load` (file open assumed to succeed; the
stream is the file's content).  The local `dtNavMeshParams` is
uninitialized stack memory, modelled as `default`.  Since `clear()`
runs first, `m_crowd` is always null at the end, so a fully successful
load always ends in `initCrowd()`. -/
def load (lib : MeshBuildLib) (stream : List FileVal) (s : SceneState) : SceneState × Bool :=
  let s1 := initNavmeshState (clearState s)
  let r1 := readAABB s1.aabb stream
  let r2 := readInt s1.num_tiles_x r1.2
  let r3 := readInt s1.num_tiles_z r2.2
  let r4 := readParams default r3.2
  let s2 := { s1 with aabb := r1.1, num_tiles_x := r2.1, num_tiles_z := r3.1 }
  if !lib.initOk r4.1 then (s2, false)
  else
    let rt := loadTiles lib ⟨some r4.1, []⟩ r4.2 (r3.1.toNat * r2.1.toNat)
    let s3 := { s2 with navmesh := some rt.1 }
    if rt.2.2 then (initCrowd s3, true) else (s3, false)

/-! ## Concrete example data

Small closed instances used to evaluate the verified operations on
concrete inputs. -/

/-- Steering parameters of a live example crowd agent (max speed 10, as
`addCrowdAgent` sets for a radius-1/2 agent). -/
def exParams : DtCrowdAgentParams := ⟨1 / 2, 2, 10, 10, 6, 15, 31⟩

/-- An example crowd agent at the origin, idle (no corners, no target). -/
def exDtAgent : DtCrowdAgent := ⟨⟨0, 0, 0⟩, ⟨0, 0, 0⟩, 0, exParams, 0, ⟨0, 0, 0⟩⟩

/-- A crowd holding the one example agent under handle 0. -/
def exCrowd : DtCrowd := ⟨[(0, exDtAgent)], 1⟩

/-- An agent component on entity 5 bound to crowd handle 0, arrived. -/
def exAgent : Agent := ⟨5, 1 / 2, 2, 0, true⟩

/-- A scene with the example agent, running crowd and live query. -/
def exState : SceneState :=
  { positions := [(5, ⟨0, 0, 0⟩)]
    facings := []
    agents := [exAgent]
    crowd := some exCrowd
    navmesh := none
    navquery := true
    polymesh := none
    aabb := ⟨⟨0, 0, 0⟩, ⟨0, 0, 0⟩⟩
    num_tiles_x := 0
    num_tiles_z := 0
    config := initialConfig }

/-- The example agent component with the arrived flag clear (en route). -/
def exAgentMoving : Agent := ⟨5, 1 / 2, 2, 0, false⟩

/-- `exState` with the en-route agent. -/
def exStateMoving : SceneState := { exState with agents := [exAgentMoving] }

/-- A benign mesh-build library: every stage succeeds, the empty poly
mesh results from any input, blobs record their tile coordinate and the
mesh's counts, and init/addTile accept everything. -/
def exLib : MeshBuildLib :=
  { pipe := fun _ => some ⟨0, 0, []⟩
    createData := fun pm _ x z => some ⟨x, z, pm.npolys, pm.nverts, 0⟩
    initOk := fun _ => true
    tileOk := fun _ => true }

/-- Geometry: a single model covering `[0,100]²` in XZ with no
triangles (enough to give the full build a 2×2 tile grid). -/
def exSceneBig : RenderSceneModel :=
  { renderables := [⟨true, ⟨⟨0, 0, 0⟩, ⟨100, 0, 100⟩⟩, []⟩], terrains := [] }

/-- An upward-facing triangle (face normal `(0, 1, 0)`). -/
def exTri : Vec3 × Vec3 × Vec3 := (⟨0, 0, 0⟩, ⟨0, 0, 1⟩, ⟨1, 0, 0⟩)

/-- A flat example terrain of resolution 4×4 at scale 1. -/
def exTerrain : Terrain :=
  { pos := ⟨0, 0, 0⟩, scaleXZ := 1, resX := 4, resY := 4
    heightAt := fun _ _ => 0, aabb := ⟨⟨0, 0, 0⟩, ⟨3, 0, 3⟩⟩ }

/-- Geometry with one walkable-material mesh triangle and the flat
terrain. -/
def exScene8 : RenderSceneModel :=
  { renderables := [⟨true, ⟨⟨-1, -1, -1⟩, ⟨2, 2, 2⟩⟩, [⟨false, false, [exTri]⟩]⟩]
    terrains := [exTerrain] }

/-- Geometry whose only triangle sits on a nonwalkable-flagged material. -/
def exScene5 : RenderSceneModel :=
  { renderables := [⟨true, ⟨⟨-1, -1, -1⟩, ⟨2, 2, 2⟩⟩, [⟨false, true, [exTri]⟩]⟩]
    terrains := [] }

/-- Example stored navmesh parameters. -/
def exNavParams : NavMeshParams := ⟨⟨0, 0, 0⟩, 384 / 5, 384 / 5, 1, 4194304⟩

/-- An example built tile blob at coordinate (0, 0). -/
def exBlob : TileBlob := ⟨0, 0, 3, 7, 42⟩

/-- A successfully built 1×1-grid store holding `exBlob`. -/
def exStateStore : SceneState :=
  { exState with navmesh := some ⟨some exNavParams, [((0, 0), exBlob)]⟩
                 num_tiles_x := 1, num_tiles_z := 1 }

/-- A library whose tile insertion rejects every blob not at tile
column 0 (used to exhibit a mid-stream `addTile` failure). -/
def exLibReject : MeshBuildLib := { exLib with tileOk := fun b => b.tx == 0 }

/-- A library whose `dtCreateNavMeshData` fails for every tile except
(0, 0) (used to exhibit a mid-build tile failure). -/
def exLibFail : MeshBuildLib :=
  { exLib with createData := fun pm _ x z =>
      if x = 0 ∧ z = 0 then some ⟨x, z, pm.npolys, pm.nverts, 0⟩ else none }

/-- A stored stream describing a 2×1 grid with tiles at (0,0) and (1,0). -/
def exStream : List FileVal :=
  [FileVal.aabbV ⟨⟨0, 0, 0⟩, ⟨0, 0, 0⟩⟩, FileVal.intV 2, FileVal.intV 1,
   FileVal.paramsV exNavParams, FileVal.intV 0, FileVal.blobV ⟨0, 0, 0, 0, 0⟩,
   FileVal.intV 0, FileVal.blobV ⟨1, 0, 0, 0, 0⟩]

/-! ## Association-list lemmas -/

theorem assoc_find_filter_ne_pair {α : Type} (l : List ((ℤ × ℤ) × α)) (k k' : ℤ × ℤ) :
    (l.filter (fun e => e.1 ≠ k)).find? (fun e => e.1 = k')
      = if k' = k then none else l.find? (fun e => e.1 = k') := by
  induction l with
  | nil => by_cases h : k' = k <;> simp [h]
  | cons hd tl ih =>
    simp only [List.filter_cons]
    by_cases h1 : hd.1 = k
    · rw [if_neg (by simp [h1]), ih]
      by_cases hkk : k' = k
      · simp [hkk]
      · have h2 : ¬(hd.1 = k') := by rw [h1]; exact fun h => hkk h.symm
        simp [List.find?, hkk, h2]
    · rw [if_pos (by simp [h1])]
      by_cases h2 : hd.1 = k'
      · have hkk : ¬(k' = k) := fun h => h1 ((h2.symm ▸ h : hd.1 = k))
        simp [List.find?, h2, hkk]
      · have hstep : List.find? (fun e => decide (e.1 = k')) (hd :: tl)
            = List.find? (fun e => decide (e.1 = k')) tl :=
          List.find?_cons_of_neg _ (by simp [h2])
        rw [List.find?_cons_of_neg _ (by simp [h2]), ih, hstep]

theorem assoc_filter_of_find_none {α : Type} (l : List ((ℤ × ℤ) × α)) (k : ℤ × ℤ)
    (h : l.find? (fun e => e.1 = k) = none) : l.filter (fun e => e.1 ≠ k) = l := by
  induction l with
  | nil => rfl
  | cons hd tl ih =>
    rw [List.find?_cons] at h
    by_cases h1 : hd.1 = k
    · simp [h1] at h
    · simp only [decide_eq_true_eq, h1, decide_False] at h
      rw [List.filter_cons, if_pos (by simp [h1]), ih h]

/-! ## Tile-store lemmas -/

theorem getTileAt_addTile (st : NavMeshStore) (b : TileBlob) (x z : ℤ) :
    (st.addTile b).getTileAt x z
      = if (x, z) = (b.tx, b.tz) then some b else st.getTileAt x z := by
  simp only [NavMeshStore.addTile, NavMeshStore.getTileAt, List.find?_append,
    assoc_find_filter_ne_pair]
  by_cases h : (x, z) = (b.tx, b.tz)
  · simp [h, List.find?, Option.orElse]
  · have h' : ¬((b.tx, b.tz) = (x, z)) := fun hh => h hh.symm
    have h2 : ¬(x = b.tx ∧ z = b.tz) := by simpa [Prod.ext_iff] using h
    rw [if_neg h]
    cases hf : st.tiles.find? (fun e => e.1 = (x, z)) with
    | none => simp [hf, List.find?, h', h2, Option.orElse]
    | some e => simp [hf, h2, Option.orElse]

theorem getTileAt_removeTileAt (st : NavMeshStore) (x z x' z' : ℤ) :
    (st.removeTileAt x z).getTileAt x' z'
      = if (x', z') = (x, z) then none else st.getTileAt x' z' := by
  simp only [NavMeshStore.removeTileAt, NavMeshStore.getTileAt, assoc_find_filter_ne_pair]
  by_cases h : (x', z') = (x, z) <;> simp [h]

theorem removeTileAt_of_absent (st : NavMeshStore) (x z : ℤ)
    (h : st.getTileAt x z = none) : st.removeTileAt x z = st := by
  rw [NavMeshStore.getTileAt, Option.map_eq_none'] at h
  rw [NavMeshStore.removeTileAt, assoc_filter_of_find_none _ _ h]

/-- The coordinate recorded in a successful tile build's blob is the
requested tile coordinate (assuming `dtCreateNavMeshData` writes the
header coordinate it is given). -/
theorem tileData_coord (lib : MeshBuildLib) (scene : RenderSceneModel) (aabb : AABB)
    (cfg : RcConfig) (x z : ℤ) (b : TileBlob)
    (hcd : ∀ pm fl x z b, lib.createData pm fl x z = some b → b.tx = x ∧ b.tz = z)
    (h : tileData lib scene aabb cfg x z = some b) : b.tx = x ∧ b.tz = z := by
  rw [tileData] at h
  cases hp : lib.pipe (rasterizeGeometry scene (tileBounds aabb cfg x z)) with
  | none => rw [hp] at h; cases h
  | some pm =>
    rw [hp] at h
    cases hc : lib.createData pm
        (pm.areas.map (fun ar => if ar = RC_WALKABLE_AREA then (1 : ℕ) else 0)) x z with
    | none => simp [hc] at h
    | some b0 =>
      simp only [hc] at h
      by_cases ht : lib.tileOk b0
      · rw [if_pos ht] at h
        cases h
        exact hcd _ _ _ _ _ hc
      · rw [if_neg ht] at h
        cases h

theorem rowMajor_nodup (nx nz : ℤ) : (rowMajor nx nz).Nodup := by
  rw [rowMajor, List.nodup_flatMap]
  constructor
  · intro j _
    refine List.Nodup.map ?_ (List.nodup_range _)
    intro a b hab
    simpa using hab
  · refine (List.pairwise_lt_range _).imp ?_
    intro j1 j2 hlt
    refine List.disjoint_left.mpr ?_
    intro x hx1 hx2
    simp only [List.mem_map, List.mem_range] at hx1 hx2
    obtain ⟨i1, -, rfl⟩ := hx1
    obtain ⟨i2, -, heq⟩ := hx2
    have : j2 = j1 := by simpa using congrArg Prod.snd heq
    omega

theorem rowMajor_length (nx nz : ℤ) : (rowMajor nx nz).length = nz.toNat * nx.toNat := by
  rw [rowMajor, List.length_flatMap]
  have : (List.map (fun j : ℕ =>
      ((List.range nx.toNat).map (fun i : ℕ => ((i : ℤ), (j : ℤ)))).length)
        (List.range nz.toNat))
      = List.replicate nz.toNat nx.toNat := by
    rw [List.eq_replicate_iff]
    refine ⟨by simp, ?_⟩
    intro b hb
    simp only [List.mem_map] at hb
    obtain ⟨j, -, rfl⟩ := hb
    simp
  simp only [Function.comp_def]
  rw [this, List.sum_replicate, smul_eq_mul]

/-- `generateTile` in terms of the pure per-tile outcome `tileData`:
the returned flag is the outcome's success, the store is updated by
remove-then-insert on success and by remove only on failure, and the
AABB, config and grid counts are untouched. -/
theorem generateTile_spec (lib : MeshBuildLib) (scene : RenderSceneModel) (s : SceneState)
    (x z : ℤ) (keep : Bool) (st : NavMeshStore) (h : s.navmesh = some st) :
    ((generateTile lib scene s x z keep).2
        = (tileData lib scene s.aabb s.config x z).isSome)
    ∧ ((generateTile lib scene s x z keep).1.navmesh
        = some (match tileData lib scene s.aabb s.config x z with
            | some b => (st.removeTileAt x z).addTile b
            | none => st.removeTileAt x z))
    ∧ (generateTile lib scene s x z keep).1.aabb = s.aabb
    ∧ (generateTile lib scene s x z keep).1.config = s.config
    ∧ (generateTile lib scene s x z keep).1.num_tiles_x = s.num_tiles_x
    ∧ (generateTile lib scene s x z keep).1.num_tiles_z = s.num_tiles_z := by
  cases hp : lib.pipe (rasterizeGeometry scene (tileBounds s.aabb s.config x z)) with
  | none => simp [generateTile, tileData, h, hp]
  | some pm =>
    cases hc : lib.createData pm
        (pm.areas.map (fun ar => if ar = RC_WALKABLE_AREA then (1 : ℕ) else 0)) x z with
    | none => simp [generateTile, tileData, h, hp, hc]
    | some b =>
      by_cases ht : lib.tileOk b
      · simp [generateTile, tileData, h, hp, hc, ht]
      · simp [generateTile, tileData, h, hp, hc, ht]

/-- The tile loop of the full build: the loop returns success iff every
coordinate's build succeeds, aborts at the first failure, and appends
the successful prefix's tiles (in loop order) to the store — which is
in particular not cleared on failure. -/
theorem buildTiles_spec (lib : MeshBuildLib) (scene : RenderSceneModel)
    (hcd : ∀ pm fl x z b, lib.createData pm fl x z = some b → b.tx = x ∧ b.tz = z) :
    ∀ (coords : List (ℤ × ℤ)) (s : SceneState) (st : NavMeshStore),
      s.navmesh = some st → coords.Nodup →
      (∀ c ∈ coords, st.getTileAt c.1 c.2 = none) →
      ((buildTiles lib scene s coords).2
          = coords.all (fun c => (tileData lib scene s.aabb s.config c.1 c.2).isSome))
      ∧ ∃ st', (buildTiles lib scene s coords).1.navmesh = some st'
          ∧ st'.inited = st.inited
          ∧ st'.tiles.map Prod.fst
              = st.tiles.map Prod.fst
                ++ coords.takeWhile
                    (fun c => (tileData lib scene s.aabb s.config c.1 c.2).isSome) := by
  intro coords
  induction coords with
  | nil =>
    intro s st h _ _
    exact ⟨by simp [buildTiles], st, by simp [buildTiles, h], rfl, by simp⟩
  | cons c cs ih =>
    intro s st h hnd habs
    obtain ⟨hret, hnm, haabb, hcfg, -, -⟩ := generateTile_spec lib scene s c.1 c.2 false st h
    have hrm : st.removeTileAt c.1 c.2 = st :=
      removeTileAt_of_absent _ _ _ (habs c (List.mem_cons_self ..))
    cases hd : tileData lib scene s.aabb s.config c.1 c.2 with
    | none =>
      have hret' : (generateTile lib scene s c.1 c.2 false).2 = false := by
        rw [hret, hd]
        rfl
      have hnm' : (generateTile lib scene s c.1 c.2 false).1.navmesh = some st := by
        rw [hnm, hd, hrm]
      refine ⟨?_, st, ?_, rfl, ?_⟩
      · simp [buildTiles, hret', hd]
      · simpa [buildTiles, hret'] using hnm'
      · simp [buildTiles, List.takeWhile_cons, hd]
    | some b =>
      have hret' : (generateTile lib scene s c.1 c.2 false).2 = true := by
        rw [hret, hd]
        rfl
      have hb := tileData_coord lib scene s.aabb s.config c.1 c.2 b hcd hd
      have hnm' : (generateTile lib scene s c.1 c.2 false).1.navmesh
          = some (st.addTile b) := by rw [hnm, hd, hrm]
      have hcn : c ∉ cs := (List.nodup_cons.mp hnd).1
      have habs' : ∀ c' ∈ cs, (st.addTile b).getTileAt c'.1 c'.2 = none := by
        intro c' hc'
        rw [getTileAt_addTile]
        have hcc : ¬((c'.1, c'.2) = (b.tx, b.tz)) := by
          rw [hb.1, hb.2]
          intro hcc
          exact hcn (by
            have : c' = c := by
              obtain ⟨u, v⟩ := c'
              obtain ⟨u', v'⟩ := c
              simpa using hcc
            rwa [← this])
        rw [if_neg hcc]
        exact habs c' (List.mem_cons_of_mem _ hc')
      obtain ⟨ihret, st', ihnm, ihin, ihmap⟩ :=
        ih (generateTile lib scene s c.1 c.2 false).1 (st.addTile b) hnm'
          (List.nodup_cons.mp hnd).2 habs'
      rw [haabb, hcfg] at ihret ihmap
      have hbc : (b.tx, b.tz) = c := by rw [hb.1, hb.2]
      have hmapb : (st.addTile b).tiles.map Prod.fst = st.tiles.map Prod.fst ++ [c] := by
        have hfn : st.tiles.find? (fun e => e.1 = c) = none := by
          have h2 := habs c (List.mem_cons_self ..)
          rw [NavMeshStore.getTileAt, Option.map_eq_none'] at h2
          exact h2
        simp only [NavMeshStore.addTile, hbc, assoc_filter_of_find_none _ _ hfn,
          List.map_append, List.map_cons, List.map_nil]
      refine ⟨?_, st', ?_, by rw [ihin]; rfl, ?_⟩
      · simp only [buildTiles, hret', if_true, List.all_cons, hd, Option.isSome_some,
          Bool.true_and]
        exact ihret
      · simpa [buildTiles, hret'] using ihnm
      · rw [ihmap, hmapb]
        simp [List.takeWhile_cons, hd, List.append_assoc]

theorem assoc_find_map {α : Type} (l : List (ℤ × α)) (k k' : ℤ) (f : α → α) :
    (l.map (fun e => if e.1 = k then (e.1, f e.2) else e)).find? (fun e => e.1 = k')
      = if k' = k then (l.find? (fun e => e.1 = k')).map (fun e => (e.1, f e.2))
        else l.find? (fun e => e.1 = k') := by
  induction l with
  | nil => by_cases h : k' = k <;> simp [h]
  | cons hd tl ih =>
    by_cases h1 : hd.1 = k
    · by_cases h2 : hd.1 = k'
      · have hkk : k' = k := by omega
        simp [List.find?, h1, h2, hkk]
      · have hkk : ¬(k' = k) := by omega
        have hkk2 : ¬(k = k') := by omega
        simp [List.find?, h1, h2, hkk, hkk2, ih]
    · by_cases h2 : hd.1 = k'
      · have hkk : ¬(k' = k) := by omega
        simp [List.find?, h1, h2, hkk]
      · simp [List.find?, h1, h2, ih]

theorem assoc_find_filter_ne {α : Type} (l : List (ℤ × α)) (k k' : ℤ) :
    (l.filter (fun e => e.1 ≠ k)).find? (fun e => e.1 = k')
      = if k' = k then none else l.find? (fun e => e.1 = k') := by
  induction l with
  | nil => by_cases h : k' = k <;> simp [h]
  | cons hd tl ih =>
    simp only [List.filter_cons]
    by_cases h1 : hd.1 = k
    · rw [if_neg (by simp [h1]), ih]
      by_cases hkk : k' = k
      · simp [hkk]
      · have h2 : ¬(hd.1 = k') := by omega
        simp [List.find?, hkk, h2]
    · rw [if_pos (by simp [h1])]
      by_cases h2 : hd.1 = k'
      · have hkk : ¬(k' = k) := by omega
        simp [List.find?, h2, hkk]
      · have hstep : List.find? (fun e => decide (e.1 = k')) (hd :: tl)
            = List.find? (fun e => decide (e.1 = k')) tl :=
          List.find?_cons_of_neg _ (by simp [h2])
        rw [List.find?_cons_of_neg _ (by simp [h2]), ih, hstep]

theorem getAgent_modifyAgent (c : DtCrowd) (h : ℤ) (f : DtCrowdAgent → DtCrowdAgent) (h' : ℤ) :
    (c.modifyAgent h f).getAgent h'
      = if h' = h then (c.getAgent h').map f else c.getAgent h' := by
  simp only [DtCrowd.modifyAgent, DtCrowd.getAgent, assoc_find_map]
  by_cases hk : h' = h <;> simp [hk, Option.map_map] <;> rfl

theorem getAgent_removeAgent (c : DtCrowd) (h h' : ℤ) :
    (c.removeAgent h).getAgent h' = if h' = h then none else c.getAgent h' := by
  simp only [DtCrowd.removeAgent, DtCrowd.getAgent, assoc_find_filter_ne]
  by_cases hk : h' = h <;> simp [hk]

theorem getAgent_addAgent (c : DtCrowd) (pos : Vec3) (p : DtCrowdAgentParams) (h' : ℤ) :
    (c.addAgent pos p).1.getAgent h'
      = ((c.getAgent h').orElse (fun _ =>
          if h' = c.nextHandle then some ⟨pos, ⟨0, 0, 0⟩, 0, p, 0, pos⟩ else none)) := by
  simp only [DtCrowd.addAgent, DtCrowd.getAgent, List.find?_append]
  cases hf : c.agents.find? (fun e => e.1 = h') with
  | none =>
    by_cases hk : h' = c.nextHandle
    · simp [List.find?, hf, hk, Option.orElse]
    · have hk' : ¬(c.nextHandle = h') := by omega
      simp [List.find?, hf, hk, hk', Option.orElse]
  | some e => simp [hf, Option.orElse]

/-! ## C10 -/

/-- C10: `update(dt, paused)` ignores its `paused` argument entirely —
for every crowd-library step function, state and time delta, the update
with `paused = true` produces exactly the same state and notifications
as with `paused = false`; the step runs whenever the crowd context
exists. -/
theorem sceneUpdate_ignores_paused (crowdStep : ℚ → DtCrowd → DtCrowd) (s : SceneState)
    (dt : ℚ) : sceneUpdate crowdStep s dt true = sceneUpdate crowdStep s dt false := rfl

/-! ## C3 -/

/-- C3 counterexample: on a `navigate` call whose destination resolves
to no polygon (the nearest-poly query yields the null ref), the call
returns failure — but the agent's max-speed parameter has nevertheless
been overwritten (10 → 3), because `updateAgentParameters` runs before
the move request is rejected.  So the claim's "on such a failure the
agent's existing movement target and parameters are not mutated" is
false. -/
theorem navigate_noPoly_mutates_params :
    (navigate (fun _ => 0) exState 5 ⟨9, 9, 9⟩ 3).2 = false
    ∧ ((((navigate (fun _ => 0) exState 5 ⟨9, 9, 9⟩ 3).1.crowd.getD ⟨[], 0⟩).getAgent 0).getD
        default).params.maxSpeed = 3
    ∧ (((exState.crowd.getD ⟨[], 0⟩).getAgent 0).getD default).params.maxSpeed = 10 := by
  refine ⟨?_, ?_, ?_⟩ <;>
    simp [navigate, exState, exAgent, exCrowd, exDtAgent, exParams, findAgent,
      DtCrowd.getAgent, DtCrowd.updateAgentParameters, DtCrowd.modifyAgent,
      DtCrowd.requestMoveTarget, INVALID_ENTITY, List.find?]

/-- C3 (amended): `navigate` fails without mutating anything when the
query or crowd is missing, the entity is invalid or has no Agent; in
the remaining cases it always overwrites the agent's max-speed
parameter first, and then: if no polygon is found within the search
extent it returns failure with the agent's movement target untouched;
otherwise it installs the move target and returns that the request was
accepted. -/
theorem navigate_spec (f : Vec3 → ℕ) (s : SceneState) (entity : ℤ) (dest : Vec3) (speed : ℚ) :
    ((s.navquery = false ∨ s.crowd = none ∨ entity = INVALID_ENTITY
        ∨ findAgent s.agents entity = none) →
      navigate f s entity dest speed = (s, false))
    ∧ (∀ c a da, s.navquery = true → s.crowd = some c → entity ≠ INVALID_ENTITY →
        findAgent s.agents entity = some a → c.getAgent a.agent = some da →
        (((navigate f s entity dest speed).1.crowd.getD ⟨[], 0⟩).getAgent a.agent).map
            (fun d => d.params.maxSpeed) = some speed
        ∧ (f dest = 0 →
            (navigate f s entity dest speed).2 = false
            ∧ (((navigate f s entity dest speed).1.crowd.getD ⟨[], 0⟩).getAgent a.agent).map
                (fun d => (d.targetRef, d.targetPos)) = some (da.targetRef, da.targetPos))
        ∧ (f dest ≠ 0 →
            (navigate f s entity dest speed).2 = true
            ∧ (((navigate f s entity dest speed).1.crowd.getD ⟨[], 0⟩).getAgent a.agent).map
                (fun d => (d.targetRef, d.targetPos)) = some (f dest, dest))) := by
  constructor
  · rintro (h | h | h | h)
    · simp [navigate, h]
    · cases hnq : s.navquery <;> simp [navigate, hnq, h]
    · cases hnq : s.navquery <;> cases hc : s.crowd <;> simp [navigate, hnq, hc, h]
    · cases hnq : s.navquery <;> cases hc : s.crowd <;>
        by_cases he : entity = INVALID_ENTITY <;> simp [navigate, hnq, hc, he, h]
  · intro c a da hq hc he ha hda
    by_cases hf : f dest = 0
    · simp [navigate, hq, hc, he, ha, hf, DtCrowd.requestMoveTarget,
        DtCrowd.updateAgentParameters, getAgent_modifyAgent, hda]
    · simp [navigate, hq, hc, he, ha, hf, DtCrowd.requestMoveTarget,
        DtCrowd.updateAgentParameters, getAgent_modifyAgent, hda]

/-- Witness for the amended C3 theorem: a concrete successful call and
a concrete no-polygon call against `exState`. -/
theorem navigate_spec_witness :
    ((navigate (fun _ => 1) exState 5 ⟨9, 9, 9⟩ 3).2 = true
      ∧ (((navigate (fun _ => 1) exState 5 ⟨9, 9, 9⟩ 3).1.crowd.getD ⟨[], 0⟩).getAgent 0).map
          (fun d => (d.targetRef, d.targetPos)) = some (1, ⟨9, 9, 9⟩))
    ∧ navigate (fun _ => 0) { exState with navquery := false } 5 ⟨9, 9, 9⟩ 3
        = ({ exState with navquery := false }, false) := by
  constructor
  · have h := (navigate_spec (fun _ => 1) exState 5 ⟨9, 9, 9⟩ 3).2 exCrowd exAgent exDtAgent
      rfl rfl (by decide)
      (by simp [exState, exAgent, findAgent, List.find?])
      (by simp [exCrowd, exAgent, exDtAgent, DtCrowd.getAgent, List.find?])
    exact (h.2.2 (by decide))
  · exact (navigate_spec (fun _ => 0) { exState with navquery := false } 5 ⟨9, 9, 9⟩ 3).1
      (Or.inl rfl)

/-! ## Update-loop lemmas -/

theorem updateAgents_append (c : DtCrowd) (ps fs : List (ℤ × Vec3)) (l1 l2 : List Agent) :
    updateAgents c ps fs (l1 ++ l2)
      = (let r1 := updateAgents c ps fs l1
         let r2 := updateAgents r1.crowd r1.positions r1.facings l2
         ⟨r2.crowd, r2.positions, r2.facings, r1.agents ++ r2.agents, r1.events ++ r2.events⟩) := by
  induction l1 generalizing c ps fs with
  | nil => simp [updateAgents]
  | cons a tl ih => simp [updateAgents, ih]

theorem updateAgents_agents_entity (ags : List Agent) : ∀ c ps fs,
    (updateAgents c ps fs ags).agents.map Agent.entity = ags.map Agent.entity := by
  induction ags with
  | nil => intro c ps fs; rfl
  | cons a tl ih =>
    intro c ps fs
    by_cases h1 : ((c.getAgent a.agent).getD default).ncorners = 0 <;>
      by_cases h2 : a.is_finished <;> simp [updateAgents, h1, h2, ih]

theorem updateAgents_count_notin (ags : List Agent) : ∀ c ps fs (e : ℤ),
    e ∉ ags.map Agent.entity → ((updateAgents c ps fs ags).events).count e = 0 := by
  induction ags with
  | nil => intro c ps fs e _; simp [updateAgents]
  | cons a tl ih =>
    intro c ps fs e he
    simp only [List.map_cons, List.mem_cons] at he
    push_neg at he
    have hne : ¬(a.entity = e) := fun h => he.1 h.symm
    by_cases h1 : ((c.getAgent a.agent).getD default).ncorners = 0 <;>
      by_cases h2 : a.is_finished <;>
      simp [updateAgents, h1, h2, List.count_append, List.count_cons, hne, ih _ _ _ _ he.2]

theorem updateAgents_crowd_preserve (ags : List Agent) : ∀ c ps fs (h : ℤ),
    ∃ t, ((updateAgents c ps fs ags).crowd.getAgent h
        = (c.getAgent h).map (fun d => { d with targetRef := t }))
      ∧ (t = 0 ∨ (c.getAgent h).map (fun d => d.targetRef) = some t) := by
  induction ags with
  | nil =>
    intro c ps fs h
    cases hg : c.getAgent h with
    | none => exact ⟨0, by simp [updateAgents, hg], Or.inl rfl⟩
    | some d => exact ⟨d.targetRef, by simp [updateAgents, hg], Or.inr (by simp [hg])⟩
  | cons a tl ih =>
    intro c ps fs h
    by_cases h1 : ((c.getAgent a.agent).getD default).ncorners = 0 <;> by_cases h2 : a.is_finished
    · -- arrived and already finished: crowd passed on unchanged
      simpa [updateAgents, h1, h2] using ih c (setA ps a.entity _) _ h
    · -- transition: the move target of `a.agent` is reset, then the tail runs
      obtain ⟨t, ht, hto⟩ := ih (c.resetMoveTarget a.agent)
        (setA ps a.entity ((c.getAgent a.agent).getD default).npos)
        (if 0 < ((c.getAgent a.agent).getD default).vel.squaredLength then
          setA fs a.entity ((c.getAgent a.agent).getD default).vel else fs) h
      rw [DtCrowd.resetMoveTarget, getAgent_modifyAgent] at ht hto
      by_cases hh : h = a.agent
      · refine ⟨t, ?_, ?_⟩
        · simp only [updateAgents, h1, h2, Bool.not_true, Bool.not_false, if_true, if_false]
          simpa [hh, Option.map_map, Function.comp] using ht
        · rcases hto with h0 | h0
          · exact Or.inl h0
          · simp only [hh, if_pos rfl, Option.map_map] at h0
            cases hg : c.getAgent a.agent with
            | none => rw [hg] at h0; simp at h0
            | some d => rw [hg] at h0; simp at h0; exact Or.inl h0.symm
      · refine ⟨t, ?_, ?_⟩
        · simp only [updateAgents, h1, h2, Bool.not_true, Bool.not_false, if_true, if_false]
          simpa [hh] using ht
        · rcases hto with h0 | h0
          · exact Or.inl h0
          · right; simpa [hh] using h0
    · -- still on route (`ncorners ≠ 0`): crowd passed on unchanged
      simpa [updateAgents, h1, h2] using ih c (setA ps a.entity _) _ h
    · simpa [updateAgents, h1, h2] using ih c (setA ps a.entity _) _ h

theorem updateAgents_target_zero (ags : List Agent) (c : DtCrowd) (ps fs : List (ℤ × Vec3))
    (h : ℤ) (d : DtCrowdAgent) (hg : c.getAgent h = some d) (h0 : d.targetRef = 0) :
    ((updateAgents c ps fs ags).crowd.getAgent h).map (fun d => d.targetRef) = some 0 := by
  obtain ⟨t, ht, hto⟩ := updateAgents_crowd_preserve ags c ps fs h
  rw [hg] at ht hto
  have ht0 : t = 0 := by
    rcases hto with h' | h'
    · exact h'
    · have h2 : t = d.targetRef := by simpa using h'.symm
      rw [h2]
      exact h0
  rw [ht, ht0]
  rfl

theorem findAgent_append_cons (pre post : List Agent) (b : Agent)
    (h : b.entity ∉ pre.map Agent.entity) :
    findAgent (pre ++ b :: post) b.entity = some b := by
  induction pre with
  | nil => simp [findAgent, List.find?]
  | cons x tl ih =>
    simp only [List.map_cons, List.mem_cons] at h
    push_neg at h
    have hx : ¬(x.entity = b.entity) := fun hh => h.1 hh.symm
    simpa [findAgent, List.find?, hx] using ih h.2

/-- Per-step behavior of the update loop for one agent `a` whose entity
is unique in the agent list and whose crowd agent has `n` corridor
corners: the loop raises one "path finished" event for `a` exactly when
`n = 0` and the arrival flag is clear, flips the flag accordingly, and
clears the agent's move target when the event fires. -/
theorem updateAgents_split (c : DtCrowd) (ps fs : List (ℤ × Vec3)) (pre post : List Agent)
    (a : Agent) (n : ℕ)
    (hpre : a.entity ∉ pre.map Agent.entity) (hpost : a.entity ∉ post.map Agent.entity)
    (hnc : (c.getAgent a.agent).map (fun d => d.ncorners) = some n) :
    ((updateAgents c ps fs (pre ++ a :: post)).events.count a.entity
        = if n = 0 ∧ a.is_finished = false then 1 else 0)
    ∧ (∃ pre' post',
        (updateAgents c ps fs (pre ++ a :: post)).agents
          = pre' ++ (if n = 0 then { a with is_finished := true }
              else { a with is_finished := false }) :: post'
        ∧ pre'.map Agent.entity = pre.map Agent.entity
        ∧ post'.map Agent.entity = post.map Agent.entity)
    ∧ (n = 0 ∧ a.is_finished = false →
        ((updateAgents c ps fs (pre ++ a :: post)).crowd.getAgent a.agent).map
            (fun d => d.targetRef) = some 0) := by
  rw [updateAgents_append]
  obtain ⟨t, hpres, -⟩ := updateAgents_crowd_preserve pre c ps fs a.agent
  cases hg : c.getAgent a.agent with
  | none => rw [hg] at hnc; simp at hnc
  | some d =>
    rw [hg] at hnc
    have hdn : d.ncorners = n := by simpa using hnc
    have hga : (updateAgents c ps fs pre).crowd.getAgent a.agent
        = some { d with targetRef := t } := by rw [hpres, hg]; rfl
    by_cases hn : n = 0
    · by_cases hf : a.is_finished = true
      · -- arrived but the flag is already set: no event, nothing changes
        refine ⟨?_, ⟨(updateAgents c ps fs pre).agents,
          (updateAgents (updateAgents c ps fs pre).crowd
            (setA (updateAgents c ps fs pre).positions a.entity d.npos)
            (if 0 < d.vel.squaredLength then
              setA (updateAgents c ps fs pre).facings a.entity d.vel
            else (updateAgents c ps fs pre).facings) post).agents, ?_,
          updateAgents_agents_entity pre c ps fs, updateAgents_agents_entity post _ _ _⟩, ?_⟩
        · simp [updateAgents, hga, hdn, hn, hf, List.count_append,
            updateAgents_count_notin _ _ _ _ _ hpre, updateAgents_count_notin _ _ _ _ _ hpost]
        · have ha : { a with is_finished := true } = a := by
            obtain ⟨e, r, hh, ag, f⟩ := a
            simp only at hf
            simp [hf]
          simp [updateAgents, hga, hdn, hn, hf, ha]
        · rintro ⟨-, hff⟩
          rw [hf] at hff
          cases hff
      · -- the transition step: one event, flag set, target cleared
        have hf' : a.is_finished = false := by
          cases hfa : a.is_finished
          · rfl
          · exact absurd hfa hf
        refine ⟨?_, ⟨(updateAgents c ps fs pre).agents,
          (updateAgents ((updateAgents c ps fs pre).crowd.resetMoveTarget a.agent)
            (setA (updateAgents c ps fs pre).positions a.entity d.npos)
            (if 0 < d.vel.squaredLength then
              setA (updateAgents c ps fs pre).facings a.entity d.vel
            else (updateAgents c ps fs pre).facings) post).agents, ?_,
          updateAgents_agents_entity pre c ps fs, updateAgents_agents_entity post _ _ _⟩, ?_⟩
        · simp [updateAgents, hga, hdn, hn, hf', List.count_append, List.count_cons,
            updateAgents_count_notin _ _ _ _ _ hpre, updateAgents_count_notin _ _ _ _ _ hpost]
        · simp [updateAgents, hga, hdn, hn, hf']
        · rintro ⟨-, -⟩
          have hc2 : ((updateAgents c ps fs pre).crowd.resetMoveTarget a.agent).getAgent a.agent
              = some { d with targetRef := 0 } := by
            rw [DtCrowd.resetMoveTarget, getAgent_modifyAgent, if_pos rfl, hga]
            rfl
          simp only [updateAgents, hga, Option.getD_some, hdn, hn, hf', Bool.not_false,
            if_true, reduceIte]
          exact updateAgents_target_zero post _ _ _ a.agent _ hc2 rfl
    · -- still en route: the flag is (re)cleared, no event
      refine ⟨?_, ⟨(updateAgents c ps fs pre).agents,
        (updateAgents (updateAgents c ps fs pre).crowd
          (setA (updateAgents c ps fs pre).positions a.entity d.npos)
          (if 0 < d.vel.squaredLength then
            setA (updateAgents c ps fs pre).facings a.entity d.vel
          else (updateAgents c ps fs pre).facings) post).agents, ?_,
        updateAgents_agents_entity pre c ps fs, updateAgents_agents_entity post _ _ _⟩, ?_⟩
      · simp [updateAgents, hga, hdn, hn, List.count_append,
          updateAgents_count_notin _ _ _ _ _ hpre, updateAgents_count_notin _ _ _ _ _ hpost]
      · simp [updateAgents, hga, hdn, hn]
      · rintro ⟨h0, -⟩
        exact absurd h0 hn

/-! ## C4 -/

/-- C4: on the simulation step where a live agent's corridor corner
count is 0 while its arrived flag is still clear (the transition out of
"en route"), `update` raises exactly one "path finished" notification
for that agent's entity, clears the agent's move target, and marks the
record finished; a subsequent step that still observes 0 corners (with
no intervening `navigate`) raises no further notification. -/
theorem sceneUpdate_pathFinished_once
    (crowdStep : ℚ → DtCrowd → DtCrowd) (s : SceneState) (dt : ℚ) (p : Bool)
    (c : DtCrowd) (hc : s.crowd = some c)
    (a : Agent) (pre post : List Agent) (hag : s.agents = pre ++ a :: post)
    (hpre : a.entity ∉ pre.map Agent.entity) (hpost : a.entity ∉ post.map Agent.entity)
    (hnc : ((crowdStep dt c).getAgent a.agent).map (fun d => d.ncorners) = some 0)
    (hfin : a.is_finished = false) :
    ((sceneUpdate crowdStep s dt p).2.count a.entity = 1)
    ∧ ((((sceneUpdate crowdStep s dt p).1.crowd.getD ⟨[], 0⟩).getAgent a.agent).map
        (fun d => d.targetRef) = some 0)
    ∧ (findAgent (sceneUpdate crowdStep s dt p).1.agents a.entity
        = some { a with is_finished := true })
    ∧ (∀ (crowdStep2 : ℚ → DtCrowd → DtCrowd) (dt2 : ℚ) (p2 : Bool),
        ((crowdStep2 dt2 ((sceneUpdate crowdStep s dt p).1.crowd.getD ⟨[], 0⟩)).getAgent
            a.agent).map (fun d => d.ncorners) = some 0 →
        (sceneUpdate crowdStep2 (sceneUpdate crowdStep s dt p).1 dt2 p2).2.count a.entity = 0) := by
  obtain ⟨hcount, ⟨pre', post', hagents, hpre', hpost'⟩, htarget⟩ :=
    updateAgents_split (crowdStep dt c) s.positions s.facings pre post a 0 hpre hpost hnc
  have hs : sceneUpdate crowdStep s dt p
      = ({ s with
            crowd := some (updateAgents (crowdStep dt c) s.positions s.facings s.agents).crowd
            positions := (updateAgents (crowdStep dt c) s.positions s.facings s.agents).positions
            facings := (updateAgents (crowdStep dt c) s.positions s.facings s.agents).facings
            agents := (updateAgents (crowdStep dt c) s.positions s.facings s.agents).agents },
         (updateAgents (crowdStep dt c) s.positions s.facings s.agents).events) := by
    simp [sceneUpdate, hc]
  rw [hag] at hs
  rw [hfin] at hcount
  simp only [and_self, reduceIte] at hcount
  simp only [reduceIte] at hagents
  have hbe : ({ a with is_finished := true } : Agent).entity = a.entity := rfl
  have hb : ({ a with is_finished := true } : Agent).agent = a.agent := rfl
  refine ⟨?_, ?_, ?_, ?_⟩
  · rw [hs]
    exact hcount
  · rw [hs]
    simp only [Option.getD_some]
    exact htarget ⟨rfl, hfin⟩
  · rw [hs]
    simp only [hagents]
    have := findAgent_append_cons pre' post' { a with is_finished := true }
      (by rw [hbe, hpre']; exact hpre)
    rwa [hbe] at this
  · intro crowdStep2 dt2 p2 hnc2
    rw [hs] at hnc2 ⊢
    simp only [Option.getD_some] at hnc2
    obtain ⟨hcount2, -, -⟩ :=
      updateAgents_split
        (crowdStep2 dt2
          (updateAgents (crowdStep dt c) s.positions s.facings (pre ++ a :: post)).crowd)
        (updateAgents (crowdStep dt c) s.positions s.facings (pre ++ a :: post)).positions
        (updateAgents (crowdStep dt c) s.positions s.facings (pre ++ a :: post)).facings
        pre' post' { a with is_finished := true } 0
        (by rw [hbe, hpre']; exact hpre) (by rw [hbe, hpost']; exact hpost)
        (by rw [hb]; exact hnc2)
    simp only [sceneUpdate, hagents]
    simpa [hbe] using hcount2

/-- Witness for C4: the example en-route agent (flag clear, corridor
empty after the step) fires exactly one notification on the first
update and none on the second. -/
theorem sceneUpdate_pathFinished_once_witness :
    ((sceneUpdate (fun _ c => c) exStateMoving 1 false).2.count 5 = 1)
    ∧ (sceneUpdate (fun _ c => c) (sceneUpdate (fun _ c => c) exStateMoving 1 false).1
        1 false).2.count 5 = 0 := by
  have h := sceneUpdate_pathFinished_once (fun _ c => c) exStateMoving 1 false exCrowd rfl
    exAgentMoving [] [] rfl (by simp) (by simp)
    (by simp [exCrowd, exDtAgent, DtCrowd.getAgent, List.find?, exAgentMoving]) rfl
  refine ⟨h.1, h.2.2.2 (fun _ c => c) 1 false ?_⟩
  simp [sceneUpdate, updateAgents, exStateMoving, exState, exCrowd, exDtAgent, exAgentMoving,
    exParams, DtCrowd.getAgent, DtCrowd.resetMoveTarget, DtCrowd.modifyAgent, setA,
    Vec3.squaredLength, List.find?]

/-! ## C9 -/

/-- C9 counterexample: a successful `navigate` call (polygon found and
move request accepted) on an agent whose arrived flag is set leaves the
flag set — `navigate` does not clear the arrived flag. -/
theorem navigate_does_not_clear_arrived :
    (navigate (fun _ => 1) exState 5 ⟨9, 9, 9⟩ 3).2 = true
    ∧ findAgent (navigate (fun _ => 1) exState 5 ⟨9, 9, 9⟩ 3).1.agents 5 = some exAgent
    ∧ exAgent.is_finished = true := by
  refine ⟨?_, ?_, rfl⟩ <;>
    simp [navigate, exState, exAgent, exCrowd, exDtAgent, exParams, findAgent,
      DtCrowd.getAgent, DtCrowd.updateAgentParameters, DtCrowd.modifyAgent,
      DtCrowd.requestMoveTarget, INVALID_ENTITY, List.find?]

/-- C9 (amended): `navigate` never changes any agent record — in
particular it does not clear the arrived flag; the flag is instead
cleared by the next update step whose crowd state shows a nonzero
corridor corner count for the agent, so a later arrival can raise the
"path finished" notification again. -/
theorem navigate_flag_cleared_by_update (f : Vec3 → ℕ) (s : SceneState) (entity : ℤ)
    (dest : Vec3) (speed : ℚ) :
    (navigate f s entity dest speed).1.agents = s.agents
    ∧ (∀ (crowdStep : ℚ → DtCrowd → DtCrowd) (dt : ℚ) (p : Bool) (c : DtCrowd) (a : Agent)
        (pre post : List Agent) (n : ℕ), s.crowd = some c → s.agents = pre ++ a :: post →
        a.entity ∉ pre.map Agent.entity → a.entity ∉ post.map Agent.entity →
        ((crowdStep dt c).getAgent a.agent).map (fun d => d.ncorners) = some n → n ≠ 0 →
        findAgent (sceneUpdate crowdStep s dt p).1.agents a.entity
          = some { a with is_finished := false }) := by
  constructor
  · by_cases hq : s.navquery
    · cases hc : s.crowd with
      | none => simp [navigate, hq, hc]
      | some c =>
        by_cases he : entity = INVALID_ENTITY
        · simp [navigate, hq, hc, he]
        · cases ha : findAgent s.agents entity with
          | none => simp [navigate, hq, hc, he, ha]
          | some a =>
            by_cases hf : f dest = 0 <;>
              simp [navigate, hq, hc, he, ha, hf, DtCrowd.requestMoveTarget]
    · simp [navigate, hq]
  · intro crowdStep dt p c a pre post n hc hag hpre hpost hnc hn
    obtain ⟨-, ⟨pre', post', hagents, hpre', hpost'⟩, -⟩ :=
      updateAgents_split (crowdStep dt c) s.positions s.facings pre post a n hpre hpost hnc
    have hs : (sceneUpdate crowdStep s dt p).1.agents
        = (updateAgents (crowdStep dt c) s.positions s.facings s.agents).agents := by
      simp [sceneUpdate, hc]
    rw [hs, hag, hagents, if_neg hn]
    have hbe : ({ a with is_finished := false } : Agent).entity = a.entity := rfl
    have := findAgent_append_cons pre' post' { a with is_finished := false }
      (by rw [hbe, hpre']; exact hpre)
    rwa [hbe] at this

/-- Witness for the amended C9 theorem: `navigate` leaves the example
arrived agent's record untouched, and an update step observing 2
corridor corners clears the arrived flag. -/
theorem navigate_flag_cleared_by_update_witness :
    (navigate (fun _ => 1) exState 5 ⟨9, 9, 9⟩ 3).1.agents = exState.agents
    ∧ findAgent (sceneUpdate (fun _ c => c.modifyAgent 0 (fun d => { d with ncorners := 2 }))
        exState 1 false).1.agents 5 = some { exAgent with is_finished := false } := by
  have h := navigate_flag_cleared_by_update (fun _ => 1) exState 5 ⟨9, 9, 9⟩ 3
  refine ⟨h.1, ?_⟩
  have h2 := h.2 (fun _ c => c.modifyAgent 0 (fun d => { d with ncorners := 2 })) 1 false
    exCrowd exAgent [] [] 2 rfl rfl (by simp) (by simp)
    (by simp [exCrowd, exDtAgent, exAgent, DtCrowd.getAgent, DtCrowd.modifyAgent, List.find?])
    (by decide)
  exact h2

/-! ## C7 -/

theorem findAgent_map_handle (l : List Agent) (entity : ℤ) (n : ℤ) :
    findAgent (l.map (fun b => if b.entity = entity then { b with agent := n } else b)) entity
      = (findAgent l entity).map (fun b => { b with agent := n }) := by
  induction l with
  | nil => rfl
  | cons x tl ih =>
    by_cases hx : x.entity = entity
    · simp [findAgent, List.find?, hx]
    · simp only [List.map_cons, if_neg hx]
      simpa [findAgent, List.find?, hx] using ih

/-- C7: when an entity that has a live Agent is moved externally, the
handler resynchronizes exactly when the squared distance between the
new transform position and the crowd-simulated position exceeds the
0.1 tolerance: above the tolerance the agent is detached and re-added
at the new position under a fresh handle with cleared velocity,
corridor and move target (the old crowd slot is gone); at or below the
tolerance nothing changes. -/
theorem onEntityMoved_resync (s : SceneState) (entity : ℤ) (c : DtCrowd) (a : Agent)
    (da : DtCrowdAgent) (hc : s.crowd = some c) (ha : findAgent s.agents entity = some a)
    (hda : c.getAgent a.agent = some da)
    (hfresh : c.getAgent c.nextHandle = none) :
    (((getPosition s entity).sub da.npos).squaredLength ≤ 1 / 10 →
      onEntityMoved s entity = some s)
    ∧ (((getPosition s entity).sub da.npos).squaredLength > 1 / 10 →
      ∃ s' c', onEntityMoved s entity = some s' ∧ s'.crowd = some c'
        ∧ c'.getAgent c.nextHandle
            = some ⟨getPosition s entity, ⟨0, 0, 0⟩, 0, crowdParamsOf a, 0, getPosition s entity⟩
        ∧ c'.getAgent a.agent = none
        ∧ findAgent s'.agents entity = some { a with agent := c.nextHandle }) := by
  have hne : a.agent ≠ c.nextHandle := by
    intro h
    rw [h, hfresh] at hda
    cases hda
  have hne' : ¬(c.nextHandle = a.agent) := fun h => hne h.symm
  constructor
  · intro hle
    have hni : ¬(((getPosition s entity).sub da.npos).squaredLength > 1 / 10) := not_lt.mpr hle
    simp only [onEntityMoved, ha, hc, hda]
    rw [if_neg hni]
  · intro hgt
    refine ⟨{ s with
        crowd := some (addCrowdAgentC (c.removeAgent a.agent) (getPosition s entity) a).1
        agents := s.agents.map (fun b => if b.entity = entity then
          { b with agent := (addCrowdAgentC (c.removeAgent a.agent) (getPosition s entity) a).2 }
          else b) },
      (addCrowdAgentC (c.removeAgent a.agent) (getPosition s entity) a).1, ?_, rfl, ?_, ?_, ?_⟩
    · simp only [onEntityMoved, ha, hc, hda]
      rw [if_pos hgt]
    · rw [addCrowdAgentC, getAgent_addAgent, getAgent_removeAgent]
      rw [if_neg hne', hfresh]
      have hnh : (c.removeAgent a.agent).nextHandle = c.nextHandle := rfl
      simp [hnh, Option.orElse]
    · rw [addCrowdAgentC, getAgent_addAgent, getAgent_removeAgent]
      rw [if_pos rfl]
      have hnh : (c.removeAgent a.agent).nextHandle = c.nextHandle := rfl
      simp [hnh, hne, Option.orElse]
    · show findAgent (s.agents.map _) entity = _
      have hh : (addCrowdAgentC (c.removeAgent a.agent) (getPosition s entity) a).2
          = c.nextHandle := rfl
      rw [hh, findAgent_map_handle, ha, Option.map_some']

/-- Witness for C7: moving entity 5 to the position it already occupies
(squared distance 0 ≤ 0.1) changes nothing; teleporting it to
`(9, 0, 0)` (squared distance 81 > 0.1) re-adds its agent at the new
position under the fresh handle 1 and drops crowd slot 0. -/
theorem onEntityMoved_resync_witness :
    onEntityMoved exState 5 = some exState
    ∧ (∃ s' c', onEntityMoved { exState with positions := [(5, ⟨9, 0, 0⟩)] } 5 = some s'
        ∧ s'.crowd = some c'
        ∧ c'.getAgent 1
            = some ⟨⟨9, 0, 0⟩, ⟨0, 0, 0⟩, 0, crowdParamsOf exAgent, 0, ⟨9, 0, 0⟩⟩
        ∧ c'.getAgent 0 = none
        ∧ findAgent s'.agents 5 = some { exAgent with agent := 1 }) := by
  constructor
  · refine (onEntityMoved_resync exState 5 exCrowd exAgent exDtAgent rfl
      (by simp [exState, exAgent, findAgent, List.find?]) rfl rfl).1 ?_
    simp [getPosition, lookupA, List.find?, exState, exDtAgent, Vec3.sub, Vec3.squaredLength]
  · have hpos : getPosition { exState with positions := [(5, ⟨9, 0, 0⟩)] } 5 = ⟨9, 0, 0⟩ := by
      simp [getPosition, lookupA, List.find?]
    have h := (onEntityMoved_resync { exState with positions := [(5, ⟨9, 0, 0⟩)] } 5 exCrowd
      exAgent exDtAgent rfl (by simp [exState, exAgent, findAgent, List.find?]) rfl rfl).2
      (by rw [hpos]; simp [exDtAgent, Vec3.sub, Vec3.squaredLength]; norm_num)
    obtain ⟨s', c', h1, h2, h3, h4, h5⟩ := h
    rw [hpos] at h3
    exact ⟨s', c', h1, h2, h3, h4, h5⟩

/-! ## C8 -/

theorem rasterizeMeshTris_sound (w : Bool) (tris : List (Vec3 × Vec3 × Vec3)) :
    ∀ rt ∈ rasterizeMeshTris w tris, (rt.a, rt.b, rt.c) ∈ tris
      ∧ (rt.area = RC_WALKABLE_AREA
          ↔ (meshNormalWalkable (crossProduct (rt.a.sub rt.b) (rt.a.sub rt.c)) = true
              ∧ w = true))
      ∧ (rt.area = RC_WALKABLE_AREA ∨ rt.area = 0) := by
  intro rt hrt
  simp only [rasterizeMeshTris, List.mem_map] at hrt
  obtain ⟨t, ht, rfl⟩ := hrt
  refine ⟨ht, ?_, ?_⟩
  · by_cases h : (meshNormalWalkable (crossProduct (t.1.sub t.2.1) (t.1.sub t.2.2)) && w) = true
    · simp only [h, if_true]
      simp only [Bool.and_eq_true] at h
      simp [h]
    · simp only [h, if_false]
      simp only [Bool.and_eq_true] at h
      simp only [RC_WALKABLE_AREA]
      constructor
      · intro h0
        cases h0
      · intro hcon
        exact absurd hcon h
  · by_cases h : (meshNormalWalkable (crossProduct (t.1.sub t.2.1) (t.1.sub t.2.2)) && w) = true
    · simp [h]
    · simp [h]

theorem rasterizeMeshes_go_sound (aabb : AABB) (l : List Renderable) :
    ∀ rt ∈ rasterizeMeshes.go aabb l,
      ∃ r, r ∈ l ∧ r.hasModel = true ∧ r.aabb.overlaps aabb = true
        ∧ ∃ m, m ∈ r.meshes ∧ m.no_navigation = false ∧ (rt.a, rt.b, rt.c) ∈ m.tris
        ∧ (rt.area = RC_WALKABLE_AREA
            ↔ (meshNormalWalkable (crossProduct (rt.a.sub rt.b) (rt.a.sub rt.c)) = true
                ∧ m.nonwalkable = false))
        ∧ (rt.area = RC_WALKABLE_AREA ∨ rt.area = 0) := by
  induction l with
  | nil => intro rt hrt; cases hrt
  | cons r rest ih =>
    intro rt hrt
    by_cases hm : r.hasModel
    · by_cases ho : r.aabb.overlaps aabb
      · rw [rasterizeMeshes.go, if_neg (by simp [hm]), if_neg (by simp [ho])] at hrt
        rcases List.mem_append.mp hrt with hin | hin
        · simp only [rasterizeRenderable, List.mem_flatMap, List.mem_filter] at hin
          obtain ⟨m, ⟨hmem, hnav⟩, htri⟩ := hin
          obtain ⟨hts, hiff, hor⟩ := rasterizeMeshTris_sound (!m.nonwalkable) m.tris rt htri
          refine ⟨r, List.mem_cons_self .., hm, ho, m, hmem, by simpa using hnav, hts, ?_, hor⟩
          rw [hiff]
          simp
        · obtain ⟨r', hr', hrest⟩ := ih rt hin
          exact ⟨r', List.mem_cons_of_mem _ hr', hrest⟩
      · rw [rasterizeMeshes.go, if_neg (by simp [hm]), if_pos (by simp [ho])] at hrt
        obtain ⟨r', hr', hrest⟩ := ih rt hrt
        exact ⟨r', List.mem_cons_of_mem _ hr', hrest⟩
    · rw [rasterizeMeshes.go, if_pos (by simp [hm])] at hrt
      cases hrt

theorem rasterizeMeshes_go_complete (aabb : AABB) (l : List Renderable)
    (hall : ∀ r' ∈ l, r'.hasModel = true) :
    ∀ r ∈ l, r.aabb.overlaps aabb = true → ∀ m ∈ r.meshes, m.no_navigation = false →
      ∀ t ∈ m.tris,
      (⟨t.1, t.2.1, t.2.2,
        if meshNormalWalkable (crossProduct (t.1.sub t.2.1) (t.1.sub t.2.2)) && !m.nonwalkable
        then RC_WALKABLE_AREA else 0⟩ : RasterTri) ∈ rasterizeMeshes.go aabb l := by
  induction l with
  | nil => intro r hr; cases hr
  | cons r0 rest ih =>
    intro r hr ho m hm hnav t ht
    have h0 : r0.hasModel = true := hall r0 (List.mem_cons_self ..)
    rcases List.mem_cons.mp hr with rfl | hr'
    · rw [rasterizeMeshes.go, if_neg (by simp [h0]), if_neg (by simp [ho])]
      refine List.mem_append.mpr (Or.inl ?_)
      simp only [rasterizeRenderable, List.mem_flatMap, List.mem_filter]
      exact ⟨m, ⟨hm, by simp [hnav]⟩, by
        simp only [rasterizeMeshTris, List.mem_map]
        exact ⟨t, ht, rfl⟩⟩
    · by_cases ho0 : r0.aabb.overlaps aabb
      · rw [rasterizeMeshes.go, if_neg (by simp [h0]), if_neg (by simp [ho0])]
        exact List.mem_append.mpr (Or.inr
          (ih (fun r' h' => hall r' (List.mem_cons_of_mem _ h')) r hr' ho m hm hnav t ht))
      · rw [rasterizeMeshes.go, if_neg (by simp [h0]), if_pos (by simp [ho0])]
        exact ih (fun r' h' => hall r' (List.mem_cons_of_mem _ h')) r hr' ho m hm hnav t ht

theorem ifArea_spec (b : Bool) :
    ((if b then RC_WALKABLE_AREA else 0) = RC_WALKABLE_AREA ↔ b = true)
    ∧ ((if b then RC_WALKABLE_AREA else 0) = RC_WALKABLE_AREA
        ∨ (if b then RC_WALKABLE_AREA else 0) = 0) := by
  cases b <;> simp [RC_WALKABLE_AREA]

theorem terrainCellTris_area (t : Terrain) (i j : ℤ) :
    ∀ rt ∈ terrainCellTris t i j,
      (rt.area = RC_WALKABLE_AREA
        ↔ terrainNormalWalkable (crossProduct (rt.b.sub rt.a) (rt.a.sub rt.c)) = true)
      ∧ (rt.area = RC_WALKABLE_AREA ∨ rt.area = 0) := by
  intro rt hrt
  simp only [terrainCellTris, List.mem_cons, List.not_mem_nil, or_false] at hrt
  rcases hrt with rfl | rfl <;> exact ifArea_spec _

theorem rasterizeTerrains_sound (scene : RenderSceneModel) (aabb : AABB) :
    ∀ rt ∈ rasterizeTerrains scene aabb,
      ∃ t, t ∈ scene.terrains ∧ ∃ i j, rt ∈ terrainCellTris t i j := by
  intro rt hrt
  simp only [rasterizeTerrains, rasterizeTerrain, List.mem_flatMap] at hrt
  obtain ⟨t, ht, j, -, i, -, hcell⟩ := hrt
  exact ⟨t, ht, i, j, hcell⟩

theorem rasterizeTerrain_complete (t : Terrain) (aabb : AABB) (i j : ℤ)
    (hi1 : (terrainCellRange t aabb).1 ≤ i) (hi2 : i < (terrainCellRange t aabb).2.1)
    (hj1 : (terrainCellRange t aabb).2.2.1 ≤ j) (hj2 : j < (terrainCellRange t aabb).2.2.2) :
    ∀ rt ∈ terrainCellTris t i j, rt ∈ rasterizeTerrain t aabb := by
  intro rt hrt
  have hj : j ∈ (List.range ((terrainCellRange t aabb).2.2.2
      - (terrainCellRange t aabb).2.2.1).toNat).map
        (fun dj : ℕ => (terrainCellRange t aabb).2.2.1 + (dj : ℤ)) := by
    have hlt : (j - (terrainCellRange t aabb).2.2.1).toNat
        < ((terrainCellRange t aabb).2.2.2 - (terrainCellRange t aabb).2.2.1).toNat := by omega
    have heq : (terrainCellRange t aabb).2.2.1
        + (((j - (terrainCellRange t aabb).2.2.1).toNat : ℕ) : ℤ) = j := by
      rw [Int.toNat_of_nonneg (by omega)]
      omega
    have hm : (terrainCellRange t aabb).2.2.1
        + (((j - (terrainCellRange t aabb).2.2.1).toNat : ℕ) : ℤ)
        ∈ (List.range ((terrainCellRange t aabb).2.2.2
            - (terrainCellRange t aabb).2.2.1).toNat).map
          (fun dj : ℕ => (terrainCellRange t aabb).2.2.1 + (dj : ℤ)) :=
      List.mem_map_of_mem (fun dj : ℕ => (terrainCellRange t aabb).2.2.1 + (dj : ℤ))
        (List.mem_range.mpr hlt)
    exact heq ▸ hm
  have hi : i ∈ (List.range ((terrainCellRange t aabb).2.1
      - (terrainCellRange t aabb).1).toNat).map
        (fun di : ℕ => (terrainCellRange t aabb).1 + (di : ℤ)) := by
    have hlt : (i - (terrainCellRange t aabb).1).toNat
        < ((terrainCellRange t aabb).2.1 - (terrainCellRange t aabb).1).toNat := by omega
    have heq : (terrainCellRange t aabb).1
        + (((i - (terrainCellRange t aabb).1).toNat : ℕ) : ℤ) = i := by
      rw [Int.toNat_of_nonneg (by omega)]
      omega
    have hm : (terrainCellRange t aabb).1
        + (((i - (terrainCellRange t aabb).1).toNat : ℕ) : ℤ)
        ∈ (List.range ((terrainCellRange t aabb).2.1
            - (terrainCellRange t aabb).1).toNat).map
          (fun di : ℕ => (terrainCellRange t aabb).1 + (di : ℤ)) :=
      List.mem_map_of_mem (fun di : ℕ => (terrainCellRange t aabb).1 + (di : ℤ))
        (List.mem_range.mpr hlt)
    exact heq ▸ hm
  simp only [rasterizeTerrain]
  exact List.mem_flatMap.mpr ⟨j, hj, List.mem_flatMap.mpr ⟨i, hi, hrt⟩⟩

/-- C8: every mesh triangle the sampler rasterizes is classified
walkable exactly when its face normal's up-component exceeds cos 45°
and its material is not flagged nonwalkable; every terrain grid-cell
triangle is classified walkable exactly when its normal's up-component
exceeds cos 60°; all sampled triangles are rasterized with area
"walkable" (63) or "null" (0) accordingly, and every triangle of a
sampled (model-bearing, overlapping, navigation-enabled) sub-mesh and
every clipped terrain grid cell is sampled. -/
theorem rasterize_walkability (scene : RenderSceneModel) (aabb : AABB) :
    (∀ rt ∈ rasterizeMeshes scene aabb,
      ∃ r, r ∈ scene.renderables ∧ r.hasModel = true ∧ r.aabb.overlaps aabb = true
        ∧ ∃ m, m ∈ r.meshes ∧ m.no_navigation = false ∧ (rt.a, rt.b, rt.c) ∈ m.tris
        ∧ (rt.area = RC_WALKABLE_AREA
            ↔ (meshNormalWalkable (crossProduct (rt.a.sub rt.b) (rt.a.sub rt.c)) = true
                ∧ m.nonwalkable = false))
        ∧ (rt.area = RC_WALKABLE_AREA ∨ rt.area = 0))
    ∧ ((∀ r' ∈ scene.renderables, r'.hasModel = true) →
        ∀ r ∈ scene.renderables, r.aabb.overlaps aabb = true →
        ∀ m ∈ r.meshes, m.no_navigation = false → ∀ t ∈ m.tris,
        (⟨t.1, t.2.1, t.2.2,
          if meshNormalWalkable (crossProduct (t.1.sub t.2.1) (t.1.sub t.2.2)) && !m.nonwalkable
          then RC_WALKABLE_AREA else 0⟩ : RasterTri) ∈ rasterizeMeshes scene aabb)
    ∧ (∀ rt ∈ rasterizeTerrains scene aabb,
        (rt.area = RC_WALKABLE_AREA
          ↔ terrainNormalWalkable (crossProduct (rt.b.sub rt.a) (rt.a.sub rt.c)) = true)
        ∧ (rt.area = RC_WALKABLE_AREA ∨ rt.area = 0))
    ∧ (∀ t ∈ scene.terrains, ∀ i j : ℤ,
        (terrainCellRange t aabb).1 ≤ i → i < (terrainCellRange t aabb).2.1 →
        (terrainCellRange t aabb).2.2.1 ≤ j → j < (terrainCellRange t aabb).2.2.2 →
        ∀ rt ∈ terrainCellTris t i j, rt ∈ rasterizeTerrains scene aabb) := by
  refine ⟨?_, ?_, ?_, ?_⟩
  · exact rasterizeMeshes_go_sound aabb scene.renderables
  · exact fun hall => rasterizeMeshes_go_complete aabb scene.renderables hall
  · intro rt hrt
    obtain ⟨t, -, i, j, hcell⟩ := rasterizeTerrains_sound scene aabb rt hrt
    exact terrainCellTris_area t i j rt hcell
  · intro t ht i j hi1 hi2 hj1 hj2 rt hrt
    simp only [rasterizeTerrains, List.mem_flatMap]
    exact ⟨t, ht, rasterizeTerrain_complete t aabb i j hi1 hi2 hj1 hj2 rt hrt⟩

/-- Witness for C8: in the example scene, the upward-facing mesh
triangle on a walkable material is rasterized walkable, and terrain
cell (0, 0)'s first (flat, upward) triangle is rasterized walkable. -/
theorem rasterize_walkability_witness :
    (⟨⟨0, 0, 0⟩, ⟨0, 0, 1⟩, ⟨1, 0, 0⟩, RC_WALKABLE_AREA⟩ : RasterTri)
        ∈ rasterizeMeshes exScene8 ⟨⟨-1, -1, -1⟩, ⟨4, 4, 4⟩⟩
    ∧ (⟨⟨0, 0, 0⟩, ⟨1, 0, 0⟩, ⟨1, 0, 1⟩, RC_WALKABLE_AREA⟩ : RasterTri)
        ∈ rasterizeTerrains exScene8 ⟨⟨-1, -1, -1⟩, ⟨4, 4, 4⟩⟩ := by
  have h := rasterize_walkability exScene8 ⟨⟨-1, -1, -1⟩, ⟨4, 4, 4⟩⟩
  constructor
  · have hmem := h.2.1 (by simp [exScene8])
      ⟨true, ⟨⟨-1, -1, -1⟩, ⟨2, 2, 2⟩⟩, [⟨false, false, [exTri]⟩]⟩ (by simp [exScene8])
      (by norm_num [AABB.overlaps]) ⟨false, false, [exTri]⟩ (by simp) rfl exTri (by simp)
    simpa [exTri, meshNormalWalkable, crossProduct, Vec3.sub, Vec3.squaredLength] using hmem
  · have hr : terrainCellRange exTerrain ⟨⟨-1, -1, -1⟩, ⟨4, 4, 4⟩⟩ = (0, 3, 0, 3) := by
      norm_num [terrainCellRange, clampQ, cInt, exTerrain, Vec3.sub]
    have hmem := h.2.2.2 exTerrain (by simp [exScene8]) 0 0
      (by rw [hr]) (by rw [hr]; norm_num) (by rw [hr]) (by rw [hr]; norm_num)
      ⟨⟨0, 0, 0⟩, ⟨1, 0, 0⟩, ⟨1, 0, 1⟩, RC_WALKABLE_AREA⟩
      (by norm_num [terrainCellTris, exTerrain, terrainNormalWalkable, crossProduct,
        Vec3.sub, Vec3.squaredLength, RC_WALKABLE_AREA])
    exact hmem

/-! ## C1 -/

/-- C1 (amended): `generateNavmesh` clears, re-initializes, derives the
grid, and — when the library accepts the parameters — builds the tile
coordinates in row-major order (z outer, x inner): it returns success
iff every coordinate's build succeeds, and on the first failure it
aborts the remaining tiles and returns failure, leaving the navmesh
initialized and holding exactly the tiles built before the failure (in
row-major insertion order) — the store is not cleared. -/
theorem generateNavmesh_spec (lib : MeshBuildLib) (scene : RenderSceneModel) (s : SceneState)
    (hcd : ∀ pm fl x z b, lib.createData pm fl x z = some b → b.tx = x ∧ b.tz = z) :
    (lib.initOk (deriveNavMeshParams (computeAABB scene)).1 = false →
      generateNavmesh lib scene s
        = ({ initNavmeshState (clearState s) with
              aabb := computeAABB scene
              num_tiles_x := (deriveNavMeshParams (computeAABB scene)).2.1
              num_tiles_z := (deriveNavMeshParams (computeAABB scene)).2.2 }, false))
    ∧ (lib.initOk (deriveNavMeshParams (computeAABB scene)).1 = true →
        ((generateNavmesh lib scene s).2
            = (rowMajor (deriveNavMeshParams (computeAABB scene)).2.1
                  (deriveNavMeshParams (computeAABB scene)).2.2).all
                (fun c => (tileData lib scene (computeAABB scene) s.config c.1 c.2).isSome))
        ∧ ∃ st', (generateNavmesh lib scene s).1.navmesh = some st'
            ∧ st'.inited = some (deriveNavMeshParams (computeAABB scene)).1
            ∧ st'.tiles.map Prod.fst
                = (rowMajor (deriveNavMeshParams (computeAABB scene)).2.1
                      (deriveNavMeshParams (computeAABB scene)).2.2).takeWhile
                    (fun c => (tileData lib scene (computeAABB scene) s.config c.1 c.2).isSome)) := by
  constructor
  · intro h0
    simp only [generateNavmesh, h0, Bool.not_false, if_true]
  · intro h1
    have hb := buildTiles_spec lib scene hcd
      (rowMajor (deriveNavMeshParams (computeAABB scene)).2.1
        (deriveNavMeshParams (computeAABB scene)).2.2)
      ({ initNavmeshState (clearState s) with
          aabb := computeAABB scene
          num_tiles_x := (deriveNavMeshParams (computeAABB scene)).2.1
          num_tiles_z := (deriveNavMeshParams (computeAABB scene)).2.2
          navmesh := some ⟨some (deriveNavMeshParams (computeAABB scene)).1, []⟩ })
      ⟨some (deriveNavMeshParams (computeAABB scene)).1, []⟩ rfl
      (rowMajor_nodup _ _) (fun c _ => rfl)
    obtain ⟨hret, st', hnm, hin, hmap⟩ := hb
    have hgen : generateNavmesh lib scene s
        = buildTiles lib scene
            ({ initNavmeshState (clearState s) with
                aabb := computeAABB scene
                num_tiles_x := (deriveNavMeshParams (computeAABB scene)).2.1
                num_tiles_z := (deriveNavMeshParams (computeAABB scene)).2.2
                navmesh := some ⟨some (deriveNavMeshParams (computeAABB scene)).1, []⟩ })
            (rowMajor (deriveNavMeshParams (computeAABB scene)).2.1
              (deriveNavMeshParams (computeAABB scene)).2.2) := by
      simp only [generateNavmesh, h1, Bool.not_true, if_false]
      rfl
    simp only [initNavmeshState, clearState] at hret hmap
    rw [hgen]
    exact ⟨hret, st', hnm, hin, hmap⟩

theorem exSceneBig_aabb : computeAABB exSceneBig = ⟨⟨0, 0, 0⟩, ⟨100, 0, 100⟩⟩ := by
  norm_num [computeAABB, exSceneBig, AABB.merge]

theorem exSceneBig_nx : (deriveNavMeshParams (computeAABB exSceneBig)).2.1 = 2 := by
  rw [exSceneBig_aabb]
  norm_num [deriveNavMeshParams, rcCalcGridSize, cInt, CELL_SIZE, CELLS_PER_TILE_SIDE]

theorem exSceneBig_nz : (deriveNavMeshParams (computeAABB exSceneBig)).2.2 = 2 := by
  rw [exSceneBig_aabb]
  norm_num [deriveNavMeshParams, rcCalcGridSize, cInt, CELL_SIZE, CELLS_PER_TILE_SIDE]

/-- Witness for the amended C1 theorem: on the 2×2-grid example scene
with the always-succeeding library, the full build succeeds and the
store holds the four tiles in row-major order. -/
theorem generateNavmesh_spec_witness :
    (generateNavmesh exLib exSceneBig exState).2 = true
    ∧ ∃ st', (generateNavmesh exLib exSceneBig exState).1.navmesh = some st'
        ∧ st'.tiles.map Prod.fst = [(0, 0), (1, 0), (0, 1), (1, 1)] := by
  have h := (generateNavmesh_spec exLib exSceneBig exState
    (by intro pm fl x z b hb; cases hb; exact ⟨rfl, rfl⟩)).2 rfl
  obtain ⟨hret, st', hnm, -, hmap⟩ := h
  rw [exSceneBig_nx, exSceneBig_nz] at hret hmap
  refine ⟨?_, st', hnm, ?_⟩
  · rw [hret]
    rfl
  · rw [hmap]
    rfl

/-- C1 counterexample: with a library whose `dtCreateNavMeshData` fails
for every tile except (0, 0), the full build over the 2×2 example grid
returns failure — but the navmesh still holds the tile (0, 0) that was
built before the failure, so the store is left partially built, not
cleared. -/
theorem generateNavmesh_failure_not_cleared :
    (generateNavmesh exLibFail exSceneBig exState).2 = false
    ∧ ((generateNavmesh exLibFail exSceneBig exState).1.navmesh.getD
        ⟨none, []⟩).tiles.map Prod.fst = [(0, 0)] := by
  have hgen : generateNavmesh exLibFail exSceneBig exState
      = buildTiles exLibFail exSceneBig
          ({ initNavmeshState (clearState exState) with
              aabb := computeAABB exSceneBig
              num_tiles_x := (deriveNavMeshParams (computeAABB exSceneBig)).2.1
              num_tiles_z := (deriveNavMeshParams (computeAABB exSceneBig)).2.2
              navmesh := some ⟨some (deriveNavMeshParams (computeAABB exSceneBig)).1, []⟩ })
          (rowMajor (deriveNavMeshParams (computeAABB exSceneBig)).2.1
            (deriveNavMeshParams (computeAABB exSceneBig)).2.2) := by
    simp only [generateNavmesh]
    rfl
  rw [hgen, exSceneBig_nx, exSceneBig_nz]
  have hrm : rowMajor 2 2 = [(0, 0), (1, 0), (0, 1), (1, 1)] := rfl
  rw [hrm]
  constructor
  · rfl
  · rfl

/-! ## C5 -/

/-- C5: when the expanded build bounds of tile `(x, z)` contain no
walkable triangle, and the mesh-build library obeys its contract (§6 /
§4.2: the stage pipeline succeeds with an empty poly mesh on walkable-
free input, and `dtCreateNavMeshData` encodes a zero-polygon mesh into
a valid zero-polygon tile that `addTile` accepts), `generateTile`
succeeds and the stored tile is an empty tile with zero polygons. -/
theorem generateTile_no_walkable (lib : MeshBuildLib) (scene : RenderSceneModel) (s : SceneState)
    (x z : ℤ) (keep : Bool) (st : NavMeshStore)
    (hnm : s.navmesh = some st)
    (hnw : ∀ t ∈ rasterizeGeometry scene (tileBounds s.aabb s.config x z),
        t.area ≠ RC_WALKABLE_AREA)
    (hpipe : ∀ tris, (∀ t ∈ tris, t.area ≠ RC_WALKABLE_AREA) →
        ∃ pm, lib.pipe tris = some pm ∧ pm.npolys = 0 ∧ pm.areas = [])
    (hcd : ∀ pm fl, pm.npolys = 0 → ∃ b, lib.createData pm fl x z = some b
        ∧ b.polyCount = 0 ∧ b.tx = x ∧ b.tz = z ∧ lib.tileOk b = true) :
    (generateTile lib scene s x z keep).2 = true
    ∧ (∃ st' b, (generateTile lib scene s x z keep).1.navmesh = some st'
        ∧ st'.getTileAt x z = some b ∧ b.polyCount = 0)
    ∧ getPolygonCount (generateTile lib scene s x z keep).1 = 0 := by
  obtain ⟨pm, hp, hn0, -⟩ := hpipe _ hnw
  obtain ⟨b, hcb, hb0, hbx, hbz, hok⟩ :=
    hcd pm (pm.areas.map (fun ar => if ar = RC_WALKABLE_AREA then (1 : ℕ) else 0)) hn0
  refine ⟨?_, ⟨(st.removeTileAt x z).addTile b, b, ?_, ?_, hb0⟩, ?_⟩
  · simp [generateTile, hnm, hp, hcb, hok]
  · simp [generateTile, hnm, hp, hcb, hok]
  · rw [getTileAt_addTile, if_pos (by rw [hbx, hbz])]
  · simp [generateTile, getPolygonCount, hnm, hp, hcb, hok, hn0]

/-- Witness for C5: building tile (0, 0) over the example scene whose
only triangle lies on a nonwalkable material succeeds with zero
polygons. -/
theorem generateTile_no_walkable_witness :
    (generateTile exLib exScene5 { exState with navmesh := some ⟨none, []⟩ } 0 0 false).2 = true
    ∧ getPolygonCount
        (generateTile exLib exScene5 { exState with navmesh := some ⟨none, []⟩ } 0 0 false).1
      = 0 := by
  have hra2 : rasterizeGeometry exScene5 (tileBounds exState.aabb exState.config 0 0)
      = [⟨⟨0, 0, 0⟩, ⟨0, 0, 1⟩, ⟨1, 0, 0⟩, 0⟩] := by
    norm_num [rasterizeGeometry, rasterizeMeshes, rasterizeMeshes.go, rasterizeTerrains,
      rasterizeRenderable, rasterizeMeshTris, exScene5, exTri, AABB.overlaps, tileBounds,
      exState, initialConfig, setGeneratorParams, cInt, CELL_SIZE, CELLS_PER_TILE_SIDE,
      List.filter]
  have hra : ∀ t ∈ rasterizeGeometry exScene5
      (tileBounds ({ exState with navmesh := some ⟨none, []⟩ } : SceneState).aabb
        ({ exState with navmesh := some ⟨none, []⟩ } : SceneState).config 0 0),
      t.area ≠ RC_WALKABLE_AREA := by
    intro t ht
    rw [show (tileBounds ({ exState with navmesh := some ⟨none, []⟩ } : SceneState).aabb
        ({ exState with navmesh := some ⟨none, []⟩ } : SceneState).config 0 0)
      = tileBounds exState.aabb exState.config 0 0 from rfl, hra2] at ht
    simp only [List.mem_cons, List.not_mem_nil, or_false] at ht
    subst ht
    decide
  have h := generateTile_no_walkable exLib exScene5
    { exState with navmesh := some ⟨none, []⟩ } 0 0 false ⟨none, []⟩ rfl hra
    (fun tris _ => ⟨⟨0, 0, []⟩, rfl, rfl, rfl⟩)
    (fun pm fl h0 => ⟨⟨0, 0, pm.npolys, pm.nverts, 0⟩, rfl, h0, rfl, rfl, rfl⟩)
  exact ⟨h.1, h.2.2⟩

/-! ## C2 -/

theorem loadTiles_saveTiles (lib : MeshBuildLib) (st : NavMeshStore) :
    ∀ (coords : List (ℤ × ℤ)) (st0 : NavMeshStore) (rest : List FileVal),
      (∀ c ∈ coords, ∃ b, st.getTileAt c.1 c.2 = some b ∧ lib.tileOk b = true) →
      loadTiles lib st0 (saveTiles st coords ++ rest) coords.length
        = (coords.foldl (fun acc c => acc.addTile ((st.getTileAt c.1 c.2).getD default)) st0,
           rest, true) := by
  intro coords
  induction coords with
  | nil => intro st0 rest _; rfl
  | cons c cs ih =>
    intro st0 rest hok
    obtain ⟨b, hb, hbok⟩ := hok c (List.mem_cons_self ..)
    have hb' : (st.getTileAt c.1 c.2).getD default = b := by rw [hb]; rfl
    simp only [saveTiles, List.cons_append, List.length_cons, loadTiles, readInt, readBlob,
      hb', hbok, if_true, List.foldl_cons]
    exact ih _ rest (fun c' h' => hok c' (List.mem_cons_of_mem _ h'))

theorem getTileAt_foldl_not_mem (st : NavMeshStore) :
    ∀ (coords : List (ℤ × ℤ)) (st0 : NavMeshStore) (x z : ℤ),
      (∀ c ∈ coords, ∃ b, st.getTileAt c.1 c.2 = some b ∧ b.tx = c.1 ∧ b.tz = c.2) →
      (x, z) ∉ coords →
      (coords.foldl (fun acc c => acc.addTile ((st.getTileAt c.1 c.2).getD default))
        st0).getTileAt x z = st0.getTileAt x z := by
  intro coords
  induction coords with
  | nil => intro st0 x z _ _; rfl
  | cons c cs ih =>
    intro st0 x z hco hnmem
    obtain ⟨b, hb, hbx, hbz⟩ := hco c (List.mem_cons_self ..)
    have hb' : (st.getTileAt c.1 c.2).getD default = b := by rw [hb]; rfl
    rw [List.foldl_cons,
      ih _ x z (fun c' h' => hco c' (List.mem_cons_of_mem _ h'))
        (fun h => hnmem (List.mem_cons_of_mem _ h)),
      hb', getTileAt_addTile, if_neg ?_]
    rw [hbx, hbz]
    intro hkey
    refine hnmem (List.mem_cons.mpr (Or.inl ?_))
    obtain ⟨u, v⟩ := c
    simpa using hkey

theorem getTileAt_foldl_mem (st : NavMeshStore) :
    ∀ (coords : List (ℤ × ℤ)) (st0 : NavMeshStore) (x z : ℤ),
      coords.Nodup →
      (∀ c ∈ coords, ∃ b, st.getTileAt c.1 c.2 = some b ∧ b.tx = c.1 ∧ b.tz = c.2) →
      (x, z) ∈ coords →
      (coords.foldl (fun acc c => acc.addTile ((st.getTileAt c.1 c.2).getD default))
        st0).getTileAt x z = st.getTileAt x z := by
  intro coords
  induction coords with
  | nil => intro st0 x z _ _ hmem; cases hmem
  | cons c cs ih =>
    intro st0 x z hnd hco hmem
    obtain ⟨b, hb, hbx, hbz⟩ := hco c (List.mem_cons_self ..)
    have hb' : (st.getTileAt c.1 c.2).getD default = b := by rw [hb]; rfl
    rcases List.mem_cons.mp hmem with heq | hmem'
    · subst heq
      have hnotin : (x, z) ∉ cs := (List.nodup_cons.mp hnd).1
      rw [List.foldl_cons,
        getTileAt_foldl_not_mem st cs _ x z (fun c' h' => hco c' (List.mem_cons_of_mem _ h'))
          hnotin,
        hb', getTileAt_addTile, if_pos (by simp [hbx, hbz])]
      exact hb.symm
    · rw [List.foldl_cons]
      exact ih _ x z (List.nodup_cons.mp hnd).2
        (fun c' h' => hco c' (List.mem_cons_of_mem _ h')) hmem'

theorem inited_foldl_addTile (f : ℤ × ℤ → TileBlob) :
    ∀ (coords : List (ℤ × ℤ)) (st0 : NavMeshStore),
      (coords.foldl (fun acc c => acc.addTile (f c)) st0).inited = st0.inited := by
  intro coords
  induction coords with
  | nil => intro st0; rfl
  | cons c cs ih => intro st0; rw [List.foldl_cons]; exact ih _

/-- **C2**: round-trip law.  For a successfully built store (a navmesh whose
parameters are initialized and which holds, at every grid coordinate of the
row-major tile grid, a tile blob carrying its own coordinate that the library's
`dtNavMesh::addTile` accepts), `save` succeeds, and `load` of the saved stream
into any scene succeeds and reproduces the world AABB, the tile-grid width and
height, the navmesh build parameters, and every grid tile (hence its
polygon/vertex counts) exactly. -/
theorem save_load_roundtrip (lib : MeshBuildLib) (s : SceneState) (st : NavMeshStore)
    (params : NavMeshParams)
    (hnm : s.navmesh = some st)
    (hp : st.inited = some params)
    (hinit : lib.initOk params = true)
    (htiles : ∀ c ∈ rowMajor s.num_tiles_x s.num_tiles_z,
      ∃ b, st.getTileAt c.1 c.2 = some b ∧ b.tx = c.1 ∧ b.tz = c.2 ∧ lib.tileOk b = true) :
    (save s).2 = true ∧
    ∀ s0 : SceneState,
      (load lib (save s).1 s0).2 = true ∧
      (load lib (save s).1 s0).1.aabb = s.aabb ∧
      (load lib (save s).1 s0).1.num_tiles_x = s.num_tiles_x ∧
      (load lib (save s).1 s0).1.num_tiles_z = s.num_tiles_z ∧
      ∃ st', (load lib (save s).1 s0).1.navmesh = some st' ∧
        st'.inited = some params ∧
        ∀ c ∈ rowMajor s.num_tiles_x s.num_tiles_z,
          st'.getTileAt c.1 c.2 = st.getTileAt c.1 c.2 := by
  have hsave : save s
      = (FileVal.aabbV s.aabb :: FileVal.intV s.num_tiles_x :: FileVal.intV s.num_tiles_z ::
         FileVal.paramsV params ::
           saveTiles st (rowMajor s.num_tiles_x s.num_tiles_z), true) := by
    simp only [save, hnm, hp, Option.getD_some]
  have hlt : loadTiles lib ⟨some params, []⟩
      (saveTiles st (rowMajor s.num_tiles_x s.num_tiles_z))
      (s.num_tiles_z.toNat * s.num_tiles_x.toNat)
      = ((rowMajor s.num_tiles_x s.num_tiles_z).foldl
          (fun acc c => acc.addTile ((st.getTileAt c.1 c.2).getD default)) ⟨some params, []⟩,
         [], true) := by
    rw [← List.append_nil (saveTiles st (rowMajor s.num_tiles_x s.num_tiles_z)),
        ← rowMajor_length s.num_tiles_x s.num_tiles_z]
    exact loadTiles_saveTiles lib st _ _ []
      (fun c hcm => (htiles c hcm).imp (fun b hb => ⟨hb.1, hb.2.2.2⟩))
  refine ⟨by rw [hsave], fun s0 => ?_⟩
  have hload : load lib (save s).1 s0
      = (initCrowd { initNavmeshState (clearState s0) with
            aabb := s.aabb, num_tiles_x := s.num_tiles_x, num_tiles_z := s.num_tiles_z,
            navmesh := some ((rowMajor s.num_tiles_x s.num_tiles_z).foldl
              (fun acc c => acc.addTile ((st.getTileAt c.1 c.2).getD default))
              ⟨some params, []⟩) }, true) := by
    rw [hsave]
    simp only [load, readAABB, readInt, readParams, hinit, hlt, Bool.not_true,
      Bool.false_eq_true, if_false, if_true]
  refine ⟨by rw [hload], by rw [hload]; rfl, by rw [hload]; rfl, by rw [hload]; rfl, ?_⟩
  refine ⟨_, by rw [hload]; rfl, ?_, ?_⟩
  · exact inited_foldl_addTile (fun c => (st.getTileAt c.1 c.2).getD default) _ _
  · intro c hcm
    have hc2 : (c.1, c.2) ∈ rowMajor s.num_tiles_x s.num_tiles_z := by
      obtain ⟨u, v⟩ := c
      exact hcm
    exact getTileAt_foldl_mem st _ _ c.1 c.2 (rowMajor_nodup _ _)
      (fun c' h' => ((htiles c' h').imp (fun b hb => ⟨hb.1, hb.2.1, hb.2.2.1⟩))) hc2

/-- **C2** witness: the round trip evaluated on the concrete 1×1 store
`exStateStore` holding `exBlob`, loaded back into `exState`. -/
theorem save_load_roundtrip_witness :
    (save exStateStore).2 = true ∧
    (load exLib (save exStateStore).1 exState).2 = true ∧
    (load exLib (save exStateStore).1 exState).1.num_tiles_x = 1 := by
  have h := save_load_roundtrip exLib exStateStore ⟨some exNavParams, [((0, 0), exBlob)]⟩
    exNavParams rfl rfl rfl
    (by
      intro c hc
      have h1 : rowMajor exStateStore.num_tiles_x exStateStore.num_tiles_z
          = [((0 : ℤ), (0 : ℤ))] := by decide
      rw [h1] at hc
      have := List.eq_of_mem_singleton hc
      subst this
      exact ⟨exBlob, rfl, rfl, rfl, rfl⟩)
  exact ⟨h.1, (h.2 exState).1, (h.2 exState).2.2.1⟩

/-! ## C6 -/

/-- **C6** counterexample: with a library that rejects the second tile blob of
the stored stream, `load` fails but leaves the navmesh holding the first tile —
the store is half-populated, not cleared. -/
theorem load_failure_partial :
    (load exLibReject exStream exState).2 = false ∧
    (load exLibReject exStream exState).1.navmesh
      = some ⟨some exNavParams, [((0, 0), ⟨0, 0, 0, 0, 0⟩)]⟩ := by
  constructor <;> rfl

/-- **C6** (amended): `load` does clear all navigation state first — loading
into any scene gives exactly the result of loading into the cleared scene — and
then allocates a fresh navmesh, so the result always has one; on failure the
crowd stays null (only a fully successful load rebuilds it).  But a failed load
does NOT end in the cleared state: a mid-stream tile rejection leaves the tiles
accepted so far inside the returned navmesh. -/
theorem load_clears_first (lib : MeshBuildLib) (stream : List FileVal) (s : SceneState) :
    load lib stream s = load lib stream (clearState s) ∧
    (load lib stream s).1.navmesh ≠ none ∧
    ((load lib stream s).2 = false → (load lib stream s).1.crowd = none) := by
  refine ⟨rfl, ?_, ?_⟩
  · simp only [load]
    split
    · simp [initNavmeshState, clearState]
    · split <;> simp [initCrowd]
  · simp only [load]
    split
    · intro _
      simp [initNavmeshState, clearState]
    · split
      · intro h
        exact absurd h (by simp)
      · intro _
        simp [initNavmeshState, clearState]

/-- **C6** witness: the amended load behavior evaluated at the concrete
rejecting library, stored stream and scene of the counterexample. -/
theorem load_clears_first_witness :
    load exLibReject exStream exState = load exLibReject exStream (clearState exState) ∧
    (load exLibReject exStream exState).1.navmesh ≠ none ∧
    ((load exLibReject exStream exState).2 = false →
      (load exLibReject exStream exState).1.crowd = none) :=
  load_clears_first exLibReject exStream exState

end NavSpec
